import Mathlib

unseal Rat.add Rat.mul Rat.sub Rat.inv

/-!
Shallow embedding of the hwui display-list record/replay engine
(`src/libs/hwui/DisplayListRenderer.cpp`).

The encoded stream is a sequence of 4-byte words (`Cell`): the writer
(SkWriter32) only appends 4-byte integers, 4-byte floats, and 4-byte-padded
text blobs, and the reader (SkReader32) walks the same words.  Floats are
modelled by rationals (all operand values in the theorems below are exactly
representable, and the engine only stores and forwards them bit-identically).
Word `i` of the buffer sits at byte offset `4 * i`.

Helpers that live in headers absent from `src/` (`DisplayListRenderer.h`,
`OpenGLRenderer.h`, `ResourceCache.h`, `Rect.h`) are modelled from the spec;
each such definition carries a doc comment starting `Modelled from the spec:`.
Everything else is translated directly from the `.cpp` source.
-/

namespace HwuiDL

/-- One 4-byte word of the encoded stream: an integer, a float (rational
model), or four raw text bytes (SkWriter32 zero-pads text to a word
boundary). -/
inductive Cell where
  | i (n : Int)
  | f (q : ℚ)
  | chunk (bs : List Nat)
  deriving DecidableEq, Repr

/-! ### Opcode values

The order of `DisplayList::OP_NAMES` (DisplayListRenderer.cpp:34-75) fixes the
numeric opcode values 0..39. -/

abbrev opSave : Int := 0
abbrev opRestore : Int := 1
abbrev opRestoreToCount : Int := 2
abbrev opSaveLayer : Int := 3
abbrev opSaveLayerAlpha : Int := 4
abbrev opTranslate : Int := 5
abbrev opRotate : Int := 6
abbrev opScale : Int := 7
abbrev opSkew : Int := 8
abbrev opSetMatrix : Int := 9
abbrev opConcatMatrix : Int := 10
abbrev opClipRect : Int := 11
abbrev opDrawDisplayList : Int := 12
abbrev opDrawLayer : Int := 13
abbrev opDrawBitmap : Int := 14
abbrev opDrawBitmapMatrix : Int := 15
abbrev opDrawBitmapRect : Int := 16
abbrev opDrawBitmapMesh : Int := 17
abbrev opDrawPatch : Int := 18
abbrev opDrawColor : Int := 19
abbrev opDrawRect : Int := 20
abbrev opDrawRoundRect : Int := 21
abbrev opDrawCircle : Int := 22
abbrev opDrawOval : Int := 23
abbrev opDrawArc : Int := 24
abbrev opDrawPath : Int := 25
abbrev opDrawLines : Int := 26
abbrev opDrawPoints : Int := 27
abbrev opDrawText : Int := 28
abbrev opDrawTextOnPath : Int := 29
abbrev opDrawPosText : Int := 30
abbrev opResetShader : Int := 31
abbrev opSetupShader : Int := 32
abbrev opResetColorFilter : Int := 33
abbrev opSetupColorFilter : Int := 34
abbrev opResetShadow : Int := 35
abbrev opSetupShadow : Int := 36
abbrev opResetPaintFilter : Int := 37
abbrev opSetupPaintFilter : Int := 38
abbrev opDrawGLFunction : Int := 39

/-- Modelled from the spec: the "skip-flag bit embedded in opcode"
(`OP_MAY_BE_SKIPPED_MASK`, defined in the header absent from `src/`).  A
single bit disjoint from the opcode range 0..39; we fix bit 24. -/
def OP_MAY_BE_SKIPPED_MASK : Int := 16777216

/-- `op & OP_MAY_BE_SKIPPED_MASK` as a boolean: bit 24 of the opcode word.
All opcode words written by the recorder are non-negative, where `Int.toNat`
is the identity on the underlying value. -/
def maskTest (op : Int) : Bool := op.toNat.testBit 24

/-- `op &= ~OP_MAY_BE_SKIPPED_MASK`, as applied by `replay`/`output` in the
branch where the bit is known to be set (for `0 ≤ op < 2^25` with bit 24 set
this equals clearing the bit). -/
def maskClear (op : Int) : Int := op - OP_MAY_BE_SKIPPED_MASK

/-! ### Resources -/

/-- A recorded paint snapshot.  The fields are the parts of `SkPaint` the
engine reads: style (`0` = fill, as in `SkPaint::kFill_Style`), text
alignment (`0` = left, as in `SkPaint::kLeft_Align`), anti-alias flag, font
metrics top/bottom, the value `measureText` would return for this paint, and
the path-texture outset `computePathBounds` derives from it. -/
structure Paint where
  pid : Int
  style : Int
  align : Int
  antiAlias : Bool
  metricsTop : ℚ
  metricsBottom : ℚ
  measured : ℚ
  outset : ℚ
  deriving DecidableEq, Repr

instance : Inhabited Paint := ⟨⟨0, 0, 0, false, 0, 0, 0, 0⟩⟩

/-- A recorded path: its identity plus its axis-aligned ink bounds
(`SkPath::getBounds`). -/
structure PathH where
  hid : Int
  inkL : ℚ
  inkT : ℚ
  inkR : ℚ
  inkB : ℚ
  deriving DecidableEq, Repr

instance : Inhabited PathH := ⟨⟨0, 0, 0, 0, 0⟩⟩

/-- A bitmap: its identity (the shared-cache key) and its pixel dimensions,
read by `drawBitmap`'s quick-reject computation. -/
structure BitmapH where
  hid : Int
  bw : ℚ
  bh : ℚ
  deriving DecidableEq, Repr

instance : Inhabited BitmapH := ⟨⟨0, 0, 0⟩⟩

/-! ### Geometry (Rect.h / Snapshot are headers absent from src) -/

/-- An axis-aligned rectangle (android::uirenderer::Rect). -/
structure RectQ where
  left : ℚ
  top : ℚ
  right : ℚ
  bottom : ℚ
  deriving DecidableEq, Repr

/-- Modelled from the spec: rectangle intersection test used by quick-reject
("bound entirely outside clip"); two rectangles intersect unless one lies
strictly to a side of the other. -/
def RectQ.intersects (a b : RectQ) : Bool :=
  ¬ (b.left > a.right ∨ b.right < a.left ∨ b.top > a.bottom ∨ b.bottom < a.top)

/-- A 2-D affine transform `p ↦ L p + t` with linear part
`[[m00, m01], [m10, m11]]` and translation `(tx, ty)`. -/
structure Transform where
  m00 : ℚ
  m01 : ℚ
  m10 : ℚ
  m11 : ℚ
  tx : ℚ
  ty : ℚ
  deriving DecidableEq, Repr

def Transform.ident : Transform := ⟨1, 0, 0, 1, 0, 0⟩

def Transform.apply (m : Transform) (x y : ℚ) : ℚ × ℚ :=
  (m.m00 * x + m.m01 * y + m.tx, m.m10 * x + m.m11 * y + m.ty)

/-- Canvas-style translate: concatenate a translation on the right
(`transform->translate(dx, dy)`), so `p ↦ L (p + d) + t`. -/
def Transform.translateBy (m : Transform) (dx dy : ℚ) : Transform :=
  { m with
    tx := m.m00 * dx + m.m01 * dy + m.tx
    ty := m.m10 * dx + m.m11 * dy + m.ty }

/-- Map a rectangle and take the axis-aligned bounding box of its transformed
corners (`SkMatrix::mapRect`). -/
def Transform.mapRect (m : Transform) (r : RectQ) : RectQ :=
  let p1 := m.apply r.left r.top
  let p2 := m.apply r.right r.top
  let p3 := m.apply r.left r.bottom
  let p4 := m.apply r.right r.bottom
  { left := min (min p1.1 p2.1) (min p3.1 p4.1)
    top := min (min p1.2 p2.2) (min p3.2 p4.2)
    right := max (max p1.1 p2.1) (max p3.1 p4.1)
    bottom := max (max p1.2 p2.2) (max p3.2 p4.2) }

/-- Modelled from the spec: the transform/clip snapshot the Recorder mirrors
"purely for the purpose of computing the current transform/clip for
quick-reject". -/
structure Snapshot where
  xf : Transform
  clip : RectQ
  deriving DecidableEq, Repr

/-! ### The finalized Command List -/

/-- `DisplayList`: the finalized encoded stream plus its resource
collections (DisplayListRenderer.h members mirrored by the `.cpp`:
`mReader`/`mSize`, `mBitmapResources`, `mShaders`, `mFilterResources`,
`mPaints`, `mPaths`, `mMatrices`, `mIsRenderable`). -/
structure DisplayList where
  cells : List Cell
  size : Nat
  renderable : Bool
  bitmaps : List BitmapH
  shaders : List Int
  filters : List Int
  paints : List Paint
  paths : List PathH
  matrices : List Int
  deriving DecidableEq, Repr

def emptyDisplayList : DisplayList :=
  ⟨[], 0, true, [], [], [], [], [], []⟩

/-! ### Stream reading helpers

`SkReader32` plus the `DisplayList::get*` accessors.  Resource handles are
integer indices into the list's resource tables (modelled from the spec:
"resource handles as integer indices into the Resource Table"); resolution
of an unpopulated slot is a fatal resource-resolution error (`none`). -/

def rdI : List Cell → Option (Int × List Cell)
  | Cell.i n :: r => some (n, r)
  | _ => none

def rdF : List Cell → Option (ℚ × List Cell)
  | Cell.f q :: r => some (q, r)
  | _ => none

def allFloats : List Cell → Option (List ℚ)
  | [] => some []
  | Cell.f q :: r => (allFloats r).map (fun l => q :: l)
  | _ => none

def allInts : List Cell → Option (List Int)
  | [] => some []
  | Cell.i n :: r => (allInts r).map (fun l => n :: l)
  | _ => none

def allChunks : List Cell → Option (List (List Nat))
  | [] => some []
  | Cell.chunk bs :: r => (allChunks r).map (fun l => bs :: l)
  | _ => none

/-- `getFloats(count)`: read a count, then that many floats. -/
def rdFs (c : List Cell) : Option (List ℚ × Int × List Cell) := do
  let (n, r) ← rdI c
  if n < 0 then none else
  let k := n.toNat
  if r.length < k then none else
  let fs ← allFloats (r.take k)
  some (fs, n, r.drop k)

/-- `getInts(count)` / `getUInts(count)`: read a count, then that many
integers. -/
def rdIs (c : List Cell) : Option (List Int × Int × List Cell) := do
  let (n, r) ← rdI c
  if n < 0 then none else
  let k := n.toNat
  if r.length < k then none else
  let ns ← allInts (r.take k)
  some (ns, n, r.drop k)

/-- `getText`: read the byte length, then skip `SkAlign4(length)` bytes of
text, returning the bytes and the length. -/
def rdText (c : List Cell) : Option (List Nat × Int × List Cell) := do
  let (n, r) ← rdI c
  if n < 0 then none else
  let k := (n.toNat + 3) / 4
  if r.length < k then none else
  let cs ← allChunks (r.take k)
  some (cs.flatten.take n.toNat, n, r.drop k)

def rdPaint (dl : DisplayList) (c : List Cell) : Option (Paint × List Cell) := do
  let (n, r) ← rdI c
  if n < 0 then none else
  match dl.paints.get? n.toNat with
  | some p => some (p, r)
  | none => none

def rdPath (dl : DisplayList) (c : List Cell) : Option (PathH × List Cell) := do
  let (n, r) ← rdI c
  if n < 0 then none else
  match dl.paths.get? n.toNat with
  | some p => some (p, r)
  | none => none

def rdBitmap (dl : DisplayList) (c : List Cell) : Option (BitmapH × List Cell) := do
  let (n, r) ← rdI c
  if n < 0 then none else
  match dl.bitmaps.get? n.toNat with
  | some b => some (b, r)
  | none => none

def rdMatrix (dl : DisplayList) (c : List Cell) : Option (Int × List Cell) := do
  let (n, r) ← rdI c
  if n < 0 then none else
  match dl.matrices.get? n.toNat with
  | some m => some (m, r)
  | none => none

def rdShader (dl : DisplayList) (c : List Cell) : Option (Int × List Cell) := do
  let (n, r) ← rdI c
  if n < 0 then none else
  match dl.shaders.get? n.toNat with
  | some s => some (s, r)
  | none => none

def rdFilter (dl : DisplayList) (c : List Cell) : Option (Int × List Cell) := do
  let (n, r) ← rdI c
  if n < 0 then none else
  match dl.filters.get? n.toNat with
  | some s => some (s, r)
  | none => none

/-! ### Executor calls

One constructor per `renderer.<method>(...)` invocation `replay` can make,
carrying the decoded operand values it forwards. -/

inductive Call where
  | callDrawGLFunction (functor : Int)
  | save (flags : Int)
  | restore
  | restoreToCount (count : Int)
  | saveLayer (l t r b : ℚ) (paint : Paint) (flags : Int)
  | saveLayerAlpha (l t r b : ℚ) (alpha flags : Int)
  | translate (dx dy : ℚ)
  | rotate (degrees : ℚ)
  | scale (sx sy : ℚ)
  | skew (sx sy : ℚ)
  | setMatrix (m : Int)
  | concatMatrix (m : Int)
  | clipRect (l t r b : ℚ) (regionOp : Int)
  | drawDisplayList (handle w h flags : Int)
  | drawLayer (layer : Int) (x y : ℚ) (paint : Paint)
  | drawBitmap (b : BitmapH) (x y : ℚ) (paint : Paint)
  | drawBitmapMatrix (b : BitmapH) (m : Int) (paint : Paint)
  | drawBitmapRect (b : BitmapH) (f1 f2 f3 f4 f5 f6 f7 f8 : ℚ) (paint : Paint)
  | drawBitmapMesh (b : BitmapH) (meshWidth meshHeight : Int) (vertices : List ℚ)
      (colors : Option (List Int)) (paint : Paint)
  | drawPatch (b : BitmapH) (xDivs yDivs colors : List Int)
      (xCount yCount numColors : Int) (l t r bt : ℚ) (paint : Paint)
  | drawColor (color mode : Int)
  | drawRect (l t r b : ℚ) (paint : Paint)
  | drawRoundRect (l t r b rx ry : ℚ) (paint : Paint)
  | drawCircle (x y radius : ℚ) (paint : Paint)
  | drawOval (l t r b : ℚ) (paint : Paint)
  | drawArc (l t r b startAngle sweepAngle : ℚ) (useCenter : Bool) (paint : Paint)
  | drawPath (p : PathH) (paint : Paint)
  | drawLines (points : List ℚ) (count : Int) (paint : Paint)
  | drawPoints (points : List ℚ) (count : Int) (paint : Paint)
  | drawText (text : List Nat) (byteLength count : Int) (x y : ℚ)
      (paint : Paint) (length : ℚ)
  | drawTextOnPath (text : List Nat) (byteLength count : Int) (p : PathH)
      (hOffset vOffset : ℚ) (paint : Paint)
  | drawPosText (text : List Nat) (byteLength count : Int)
      (positions : List ℚ) (paint : Paint)
  | resetShader
  | setupShader (s : Int)
  | resetColorFilter
  | setupColorFilter (s : Int)
  | resetShadow
  | setupShadow (radius dx dy : ℚ) (color : Int)
  | resetPaintFilter
  | setupPaintFilter (clearBits setBits : Int)
  deriving DecidableEq, Repr

/-- One opcode's operand decoding and executor dispatch: the body of
`replay`'s `switch (op)` (DisplayListRenderer.cpp:613-989).  Each case body
is hoisted into its own named function `dec<Op>`; `decodeOp` is the switch
itself.  A case returns the emitted call and the remaining stream;
`decodeOp`'s final `else` is the `default:` branch (opcode not handled: log
and continue); `none` is a fatal decode/resource-resolution failure (reading
past the buffer end, a mistyped word, or an unpopulated resource slot). -/
def decDrawGLFunction (dl : DisplayList) (saveCount : Int) (c : List Cell) :
    Option (Option Call × List Cell) := do
  let (functor, r) ← rdI c
  some (some (Call.callDrawGLFunction functor), r)

def decSave (dl : DisplayList) (saveCount : Int) (c : List Cell) :
    Option (Option Call × List Cell) := do
  let (n, r) ← rdI c
  some (some (Call.save n), r)

def decRestore (dl : DisplayList) (saveCount : Int) (c : List Cell) :
    Option (Option Call × List Cell) :=
  some (some Call.restore, c)

def decRestoreToCount (dl : DisplayList) (saveCount : Int) (c : List Cell) :
    Option (Option Call × List Cell) := do
  let (n, r) ← rdI c
  some (some (Call.restoreToCount (saveCount + n)), r)

def decSaveLayer (dl : DisplayList) (saveCount : Int) (c : List Cell) :
    Option (Option Call × List Cell) := do
  let (f1, r) ← rdF c
  let (f2, r) ← rdF r
  let (f3, r) ← rdF r
  let (f4, r) ← rdF r
  let (p, r) ← rdPaint dl r
  let (flags, r) ← rdI r
  some (some (Call.saveLayer f1 f2 f3 f4 p flags), r)

def decSaveLayerAlpha (dl : DisplayList) (saveCount : Int) (c : List Cell) :
    Option (Option Call × List Cell) := do
  let (f1, r) ← rdF c
  let (f2, r) ← rdF r
  let (f3, r) ← rdF r
  let (f4, r) ← rdF r
  let (alpha, r) ← rdI r
  let (flags, r) ← rdI r
  some (some (Call.saveLayerAlpha f1 f2 f3 f4 alpha flags), r)

def decTranslate (dl : DisplayList) (saveCount : Int) (c : List Cell) :
    Option (Option Call × List Cell) := do
  let (f1, r) ← rdF c
  let (f2, r) ← rdF r
  some (some (Call.translate f1 f2), r)

def decRotate (dl : DisplayList) (saveCount : Int) (c : List Cell) :
    Option (Option Call × List Cell) := do
  let (f1, r) ← rdF c
  some (some (Call.rotate f1), r)

def decScale (dl : DisplayList) (saveCount : Int) (c : List Cell) :
    Option (Option Call × List Cell) := do
  let (f1, r) ← rdF c
  let (f2, r) ← rdF r
  some (some (Call.scale f1 f2), r)

def decSkew (dl : DisplayList) (saveCount : Int) (c : List Cell) :
    Option (Option Call × List Cell) := do
  let (f1, r) ← rdF c
  let (f2, r) ← rdF r
  some (some (Call.skew f1 f2), r)

def decSetMatrix (dl : DisplayList) (saveCount : Int) (c : List Cell) :
    Option (Option Call × List Cell) := do
  let (m, r) ← rdMatrix dl c
  some (some (Call.setMatrix m), r)

def decConcatMatrix (dl : DisplayList) (saveCount : Int) (c : List Cell) :
    Option (Option Call × List Cell) := do
  let (m, r) ← rdMatrix dl c
  some (some (Call.concatMatrix m), r)

def decClipRect (dl : DisplayList) (saveCount : Int) (c : List Cell) :
    Option (Option Call × List Cell) := do
  let (f1, r) ← rdF c
  let (f2, r) ← rdF r
  let (f3, r) ← rdF r
  let (f4, r) ← rdF r
  let (regionOp, r) ← rdI r
  some (some (Call.clipRect f1 f2 f3 f4 regionOp), r)

def decDrawDisplayList (dl : DisplayList) (saveCount : Int) (c : List Cell) :
    Option (Option Call × List Cell) := do
  let (handle, r) ← rdI c
  let (w, r) ← rdI r
  let (h, r) ← rdI r
  let (flags, r) ← rdI r
  some (some (Call.drawDisplayList handle w h flags), r)

def decDrawLayer (dl : DisplayList) (saveCount : Int) (c : List Cell) :
    Option (Option Call × List Cell) := do
  let (layer, r) ← rdI c
  let (x, r) ← rdF r
  let (y, r) ← rdF r
  let (p, r) ← rdPaint dl r
  some (some (Call.drawLayer layer x y p), r)

def decDrawBitmap (dl : DisplayList) (saveCount : Int) (c : List Cell) :
    Option (Option Call × List Cell) := do
  let (b, r) ← rdBitmap dl c
  let (x, r) ← rdF r
  let (y, r) ← rdF r
  let (p, r) ← rdPaint dl r
  some (some (Call.drawBitmap b x y p), r)

def decDrawBitmapMatrix (dl : DisplayList) (saveCount : Int) (c : List Cell) :
    Option (Option Call × List Cell) := do
  let (b, r) ← rdBitmap dl c
  let (m, r) ← rdMatrix dl r
  let (p, r) ← rdPaint dl r
  some (some (Call.drawBitmapMatrix b m p), r)

def decDrawBitmapRect (dl : DisplayList) (saveCount : Int) (c : List Cell) :
    Option (Option Call × List Cell) := do
  let (b, r) ← rdBitmap dl c
  let (f1, r) ← rdF r
  let (f2, r) ← rdF r
  let (f3, r) ← rdF r
  let (f4, r) ← rdF r
  let (f5, r) ← rdF r
  let (f6, r) ← rdF r
  let (f7, r) ← rdF r
  let (f8, r) ← rdF r
  let (p, r) ← rdPaint dl r
  some (some (Call.drawBitmapRect b f1 f2 f3 f4 f5 f6 f7 f8 p), r)

def decDrawBitmapMesh (dl : DisplayList) (saveCount : Int) (c : List Cell) :
    Option (Option Call × List Cell) := do
  let (b, r) ← rdBitmap dl c
  let (mw, r) ← rdI r
  let (mh, r) ← rdI r
  let (vertices, _vc, r) ← rdFs r
  let (hasColors, r) ← rdI r
  let (colors, r) ←
    if hasColors ≠ 0 then do
      let (cs, _cc, r2) ← rdIs r
      some (some cs, r2)
    else some (none, r)
  let (p, r) ← rdPaint dl r
  some (some (Call.drawBitmapMesh b mw mh vertices colors p), r)

def decDrawPatch (dl : DisplayList) (saveCount : Int) (c : List Cell) :
    Option (Option Call × List Cell) := do
  let (b, r) ← rdBitmap dl c
  let (xDivs, xc, r) ← rdIs r
  let (yDivs, yc, r) ← rdIs r
  let (colors, nc, r) ← rdIs r
  let (l, r) ← rdF r
  let (t, r) ← rdF r
  let (ri, r) ← rdF r
  let (bo, r) ← rdF r
  let (p, r) ← rdPaint dl r
  some (some (Call.drawPatch b xDivs yDivs colors xc yc nc l t ri bo p), r)

def decDrawColor (dl : DisplayList) (saveCount : Int) (c : List Cell) :
    Option (Option Call × List Cell) := do
  let (color, r) ← rdI c
  let (mode, r) ← rdI r
  some (some (Call.drawColor color mode), r)

def decDrawRect (dl : DisplayList) (saveCount : Int) (c : List Cell) :
    Option (Option Call × List Cell) := do
  let (f1, r) ← rdF c
  let (f2, r) ← rdF r
  let (f3, r) ← rdF r
  let (f4, r) ← rdF r
  let (p, r) ← rdPaint dl r
  some (some (Call.drawRect f1 f2 f3 f4 p), r)

def decDrawRoundRect (dl : DisplayList) (saveCount : Int) (c : List Cell) :
    Option (Option Call × List Cell) := do
  let (f1, r) ← rdF c
  let (f2, r) ← rdF r
  let (f3, r) ← rdF r
  let (f4, r) ← rdF r
  let (f5, r) ← rdF r
  let (f6, r) ← rdF r
  let (p, r) ← rdPaint dl r
  some (some (Call.drawRoundRect f1 f2 f3 f4 f5 f6 p), r)

def decDrawCircle (dl : DisplayList) (saveCount : Int) (c : List Cell) :
    Option (Option Call × List Cell) := do
  let (f1, r) ← rdF c
  let (f2, r) ← rdF r
  let (f3, r) ← rdF r
  let (p, r) ← rdPaint dl r
  some (some (Call.drawCircle f1 f2 f3 p), r)

def decDrawOval (dl : DisplayList) (saveCount : Int) (c : List Cell) :
    Option (Option Call × List Cell) := do
  let (f1, r) ← rdF c
  let (f2, r) ← rdF r
  let (f3, r) ← rdF r
  let (f4, r) ← rdF r
  let (p, r) ← rdPaint dl r
  some (some (Call.drawOval f1 f2 f3 f4 p), r)

def decDrawArc (dl : DisplayList) (saveCount : Int) (c : List Cell) :
    Option (Option Call × List Cell) := do
  let (f1, r) ← rdF c
  let (f2, r) ← rdF r
  let (f3, r) ← rdF r
  let (f4, r) ← rdF r
  let (f5, r) ← rdF r
  let (f6, r) ← rdF r
  let (i1, r) ← rdI r
  let (p, r) ← rdPaint dl r
  some (some (Call.drawArc f1 f2 f3 f4 f5 f6 (i1 = 1) p), r)

def decDrawPath (dl : DisplayList) (saveCount : Int) (c : List Cell) :
    Option (Option Call × List Cell) := do
  let (path, r) ← rdPath dl c
  let (p, r) ← rdPaint dl r
  some (some (Call.drawPath path p), r)

def decDrawLines (dl : DisplayList) (saveCount : Int) (c : List Cell) :
    Option (Option Call × List Cell) := do
  let (points, count, r) ← rdFs c
  let (p, r) ← rdPaint dl r
  some (some (Call.drawLines points count p), r)

def decDrawPoints (dl : DisplayList) (saveCount : Int) (c : List Cell) :
    Option (Option Call × List Cell) := do
  let (points, count, r) ← rdFs c
  let (p, r) ← rdPaint dl r
  some (some (Call.drawPoints points count p), r)

def decDrawText (dl : DisplayList) (saveCount : Int) (c : List Cell) :
    Option (Option Call × List Cell) := do
  let (text, len, r) ← rdText c
  let (count, r) ← rdI r
  let (x, r) ← rdF r
  let (y, r) ← rdF r
  let (p, r) ← rdPaint dl r
  let (length, r) ← rdF r
  some (some (Call.drawText text len count x y p length), r)

def decDrawTextOnPath (dl : DisplayList) (saveCount : Int) (c : List Cell) :
    Option (Option Call × List Cell) := do
  let (text, len, r) ← rdText c
  let (count, r) ← rdI r
  let (path, r) ← rdPath dl r
  let (hOffset, r) ← rdF r
  let (vOffset, r) ← rdF r
  let (p, r) ← rdPaint dl r
  some (some (Call.drawTextOnPath text len count path hOffset vOffset p), r)

def decDrawPosText (dl : DisplayList) (saveCount : Int) (c : List Cell) :
    Option (Option Call × List Cell) := do
  let (text, len, r) ← rdText c
  let (count, r) ← rdI r
  let (positions, _pc, r) ← rdFs r
  let (p, r) ← rdPaint dl r
  some (some (Call.drawPosText text len count positions p), r)

def decResetShader (dl : DisplayList) (saveCount : Int) (c : List Cell) :
    Option (Option Call × List Cell) :=
  some (some Call.resetShader, c)

def decSetupShader (dl : DisplayList) (saveCount : Int) (c : List Cell) :
    Option (Option Call × List Cell) := do
  let (s, r) ← rdShader dl c
  some (some (Call.setupShader s), r)

def decResetColorFilter (dl : DisplayList) (saveCount : Int) (c : List Cell) :
    Option (Option Call × List Cell) :=
  some (some Call.resetColorFilter, c)

def decSetupColorFilter (dl : DisplayList) (saveCount : Int) (c : List Cell) :
    Option (Option Call × List Cell) := do
  let (s, r) ← rdFilter dl c
  some (some (Call.setupColorFilter s), r)

def decResetShadow (dl : DisplayList) (saveCount : Int) (c : List Cell) :
    Option (Option Call × List Cell) :=
  some (some Call.resetShadow, c)

def decSetupShadow (dl : DisplayList) (saveCount : Int) (c : List Cell) :
    Option (Option Call × List Cell) := do
  let (radius, r) ← rdF c
  let (dx, r) ← rdF r
  let (dy, r) ← rdF r
  let (color, r) ← rdI r
  some (some (Call.setupShadow radius dx dy color), r)

def decResetPaintFilter (dl : DisplayList) (saveCount : Int) (c : List Cell) :
    Option (Option Call × List Cell) :=
  some (some Call.resetPaintFilter, c)

def decSetupPaintFilter (dl : DisplayList) (saveCount : Int) (c : List Cell) :
    Option (Option Call × List Cell) := do
  let (clearBits, r) ← rdI c
  let (setBits, r) ← rdI r
  some (some (Call.setupPaintFilter clearBits setBits), r)

/-- The `switch (op)` of `replay` (DisplayListRenderer.cpp:613-989), case by
case in source order, dispatching to the case bodies above; the final `else`
is the `default:` branch. -/
def decodeOp (dl : DisplayList) (saveCount : Int) (op : Int) (c : List Cell) :
    Option (Option Call × List Cell) :=
  if op = opDrawGLFunction then decDrawGLFunction dl saveCount c
  else if op = opSave then decSave dl saveCount c
  else if op = opRestore then decRestore dl saveCount c
  else if op = opRestoreToCount then decRestoreToCount dl saveCount c
  else if op = opSaveLayer then decSaveLayer dl saveCount c
  else if op = opSaveLayerAlpha then decSaveLayerAlpha dl saveCount c
  else if op = opTranslate then decTranslate dl saveCount c
  else if op = opRotate then decRotate dl saveCount c
  else if op = opScale then decScale dl saveCount c
  else if op = opSkew then decSkew dl saveCount c
  else if op = opSetMatrix then decSetMatrix dl saveCount c
  else if op = opConcatMatrix then decConcatMatrix dl saveCount c
  else if op = opClipRect then decClipRect dl saveCount c
  else if op = opDrawDisplayList then decDrawDisplayList dl saveCount c
  else if op = opDrawLayer then decDrawLayer dl saveCount c
  else if op = opDrawBitmap then decDrawBitmap dl saveCount c
  else if op = opDrawBitmapMatrix then decDrawBitmapMatrix dl saveCount c
  else if op = opDrawBitmapRect then decDrawBitmapRect dl saveCount c
  else if op = opDrawBitmapMesh then decDrawBitmapMesh dl saveCount c
  else if op = opDrawPatch then decDrawPatch dl saveCount c
  else if op = opDrawColor then decDrawColor dl saveCount c
  else if op = opDrawRect then decDrawRect dl saveCount c
  else if op = opDrawRoundRect then decDrawRoundRect dl saveCount c
  else if op = opDrawCircle then decDrawCircle dl saveCount c
  else if op = opDrawOval then decDrawOval dl saveCount c
  else if op = opDrawArc then decDrawArc dl saveCount c
  else if op = opDrawPath then decDrawPath dl saveCount c
  else if op = opDrawLines then decDrawLines dl saveCount c
  else if op = opDrawPoints then decDrawPoints dl saveCount c
  else if op = opDrawText then decDrawText dl saveCount c
  else if op = opDrawTextOnPath then decDrawTextOnPath dl saveCount c
  else if op = opDrawPosText then decDrawPosText dl saveCount c
  else if op = opResetShader then decResetShader dl saveCount c
  else if op = opSetupShader then decSetupShader dl saveCount c
  else if op = opResetColorFilter then decResetColorFilter dl saveCount c
  else if op = opSetupColorFilter then decSetupColorFilter dl saveCount c
  else if op = opResetShadow then decResetShadow dl saveCount c
  else if op = opSetupShadow then decSetupShadow dl saveCount c
  else if op = opResetPaintFilter then decResetPaintFilter dl saveCount c
  else if op = opSetupPaintFilter then decSetupPaintFilter dl saveCount c
  else some (none, c)

/-! ### The replay loop

`DisplayList::replay` (DisplayListRenderer.cpp:579-996): a single linear
pass.  Each iteration reads the opcode word; if its skip bit is set the
skip-length word is read and, when culling (`kReplayFlag_ClipChildren`) is
enabled, the cursor jumps `skip * 4` bytes forward and the iteration ends
with no dispatch; otherwise the bit is cleared and the opcode dispatched.
The `default:` case logs the opcode as unhandled and the loop continues.

The result is `(calls, errorOps, consumedWords)`: executor calls in order,
opcode values that hit the `default:` case (the error log), and the final
cursor position in 4-byte words (which, like `SkReader32`'s `fCurr`, can
exceed the buffer length after a long skip).  `none` models the fatal decode
failures of §7 (read past end, mistyped word, unresolved resource slot); a
negative skip-length (whose `size_t` conversion in C++ would jump far past
the buffer) is also treated as a decode failure.

The `Nat` argument is recursion fuel; one unit is spent per iteration and
every iteration consumes at least one word, so `cells.length` units always
suffice (see `replayDL`). -/
def replayL (dl : DisplayList) (saveCount : Int) (clipChildren : Bool) :
    Nat → List Cell → Option (List Call × List Int × Nat)
  | _, [] => some ([], [], 0)
  | 0, _ :: _ => none
  | fuel + 1, Cell.i op :: rest =>
    if maskTest op then
      match rest with
      | Cell.i n :: rest2 =>
        if n < 0 then none
        else if clipChildren then
          match replayL dl saveCount clipChildren fuel (rest2.drop n.toNat) with
          | some (cs, es, m) => some (cs, es, 2 + n.toNat + m)
          | none => none
        else
          match decodeOp dl saveCount (maskClear op) rest2 with
          | some (some call, r) =>
            match replayL dl saveCount clipChildren fuel r with
            | some (cs, es, m) =>
                some (call :: cs, es, 2 + (rest2.length - r.length) + m)
            | none => none
          | some (none, r) =>
            match replayL dl saveCount clipChildren fuel r with
            | some (cs, es, m) =>
                some (cs, maskClear op :: es, 2 + (rest2.length - r.length) + m)
            | none => none
          | none => none
      | _ => none
    else
      match decodeOp dl saveCount op rest with
      | some (some call, r) =>
        match replayL dl saveCount clipChildren fuel r with
        | some (cs, es, m) =>
            some (call :: cs, es, 1 + (rest.length - r.length) + m)
        | none => none
      | some (none, r) =>
        match replayL dl saveCount clipChildren fuel r with
        | some (cs, es, m) =>
            some (cs, op :: es, 1 + (rest.length - r.length) + m)
        | none => none
      | none => none
  | _ + 1, _ :: _ => none

/-- Replay a finalized list against an executor whose current save count is
`rendererSaveCount`; `replay` captures `saveCount = renderer.getSaveCount() - 1`
before the loop.  Culling is on iff the replay flags contain
`kReplayFlag_ClipChildren`. -/
def replayDL (dl : DisplayList) (clipChildren : Bool) (rendererSaveCount : Int) :
    Option (List Call × List Int × Nat) :=
  replayL dl (rendererSaveCount - 1) clipChildren dl.cells.length dl.cells

/-! ### The describe pass (`DisplayList::output`) -/

/-- One line of `output`'s diagnostic dump: the skip-length note
(`"Skip %d"`), a line naming `OP_NAMES[op]` for the op value held in the
switch variable, or the `default:` error line. -/
inductive DLog where
  | skipNote (n : Int)
  | line (o : Int)
  | errLine (o : Int)
  deriving DecidableEq, Repr

/-- One opcode's handling in `DisplayList::output`'s `switch`
(DisplayListRenderer.cpp:243-568).  Every case performs the same operand
reads as `replay`'s case and logs one line — except `DrawPosText`
(lines 514-522), whose case body has no terminating `break` and so falls
through into the `ResetShader` case body (lines 523-525), which logs
`OP_NAMES[op]` once more (with `op` still the positioned-text opcode) before
its own `break`. -/
def outputStep (dl : DisplayList) (saveCount : Int) (op : Int) (c : List Cell) :
    Option (List DLog × List Cell) :=
  if op = opDrawPosText then do
    let (_text, _len, r) ← rdText c
    let (_count, r) ← rdI r
    let (_positions, _pc, r) ← rdFs r
    let (_p, r) ← rdPaint dl r
    some ([DLog.line op, DLog.line op], r)
  else
    match decodeOp dl saveCount op c with
    | some (some _, r) => some ([DLog.line op], r)
    | some (none, r) => some ([DLog.errLine op], r)
    | none => none

/-- `DisplayList::output` (DisplayListRenderer.cpp:220-572): the debug
describe pass.  It walks the same stream with the same reads but performs no
culling: when the skip bit is set it reads the skip-length word, logs it,
clears the bit and decodes the operation anyway.  Returns the log lines and
the consumed word count. -/
def describeL (dl : DisplayList) (saveCount : Int) :
    Nat → List Cell → Option (List DLog × Nat)
  | _, [] => some ([], 0)
  | 0, _ :: _ => none
  | fuel + 1, Cell.i op :: rest =>
    if maskTest op then
      match rest with
      | Cell.i n :: rest2 =>
        match outputStep dl saveCount (maskClear op) rest2 with
        | some (ls, r) =>
          match describeL dl saveCount fuel r with
          | some (ls2, m) =>
              some (DLog.skipNote n :: ls ++ ls2, 2 + (rest2.length - r.length) + m)
          | none => none
        | none => none
      | _ => none
    else
      match outputStep dl saveCount op rest with
      | some (ls, r) =>
        match describeL dl saveCount fuel r with
        | some (ls2, m) =>
            some (ls ++ ls2, 1 + (rest.length - r.length) + m)
        | none => none
      | none => none
  | _ + 1, _ :: _ => none

/-- Top-level describe of a finalized list (`output` computes
`saveCount = renderer.getSaveCount() - 1` exactly like `replay`). -/
def outputDL (dl : DisplayList) (rendererSaveCount : Int) :
    Option (List DLog × Nat) :=
  describeL dl (rendererSaveCount - 1) dl.cells.length dl.cells

/-! ### Text encoding (`addText` / SkWriter32::writePad) -/

/-- Zero-pad a byte string to 4-byte words. -/
def chunk4 : List Nat → List Cell
  | [] => []
  | [a] => [Cell.chunk [a, 0, 0, 0]]
  | [a, b] => [Cell.chunk [a, b, 0, 0]]
  | [a, b, c] => [Cell.chunk [a, b, c, 0]]
  | a :: b :: c :: d :: rest => Cell.chunk [a, b, c, d] :: chunk4 rest

/-- `addText(text, byteLength)`: write the byte length, then `byteLength`
bytes of the text, zero-padded to a word boundary. -/
def textCells (bs : List Nat) (byteLength : Int) : List Cell :=
  Cell.i byteLength :: chunk4 (bs.take byteLength.toNat)

/-! ### The Shared Resource Cache -/

/-- Modelled from the spec: the Shared Resource Cache's externally observable
per-resource reference counts (`ResourceCache` is absent from src).
`incrementRefcount` retains; `decrementRefcount` releases, and the resource
is destroyed exactly when its count reaches zero. -/
def Cache := Int → ℕ

def incrementRefcount (h : Int) (c : Cache) : Cache :=
  fun x => if x = h then c x + 1 else c x

def decrementRefcount (h : Int) (c : Cache) : Cache :=
  fun x => if x = h then c x - 1 else c x

/-! ### The Recorder (`DisplayListRenderer`) -/

/-- The recorder's state: the write stream (`mWriter`), the pending coalesced
translation (`mTranslateX/Y`, `mHasTranslate`), the deferred restore
(`mRestoreSaveCount`), the mirrored save/restore snapshot stack
(`mSaveCount`, `mSnapshot` — modelled from the spec, the base class is
absent from src), the per-session resource tables, and `mHasDrawOps`. -/
structure RecState where
  cells : List Cell
  mTranslateX : ℚ
  mTranslateY : ℚ
  mHasTranslate : Bool
  mRestoreSaveCount : Int
  mSaveCount : Int
  cur : Snapshot
  stack : List Snapshot
  bitmaps : List BitmapH
  shaders : List Int
  filters : List Int
  paints : List Paint
  paths : List PathH
  matrices : List Int
  mHasDrawOps : Bool
  deriving DecidableEq, Repr

/-- A fresh recording session: the `DisplayListRenderer` constructor
(DisplayListRenderer.cpp:1002-1004) followed by `setViewport(w, h)` and
`prepareDirty` (1062-1069): snapshot with identity transform, clip
`[0, 0, w, h]`, `mSaveCount = 1`, `mRestoreSaveCount = -1`. -/
def initRec (w h : ℚ) : RecState :=
  { cells := [], mTranslateX := 0, mTranslateY := 0, mHasTranslate := false,
    mRestoreSaveCount := -1, mSaveCount := 1,
    cur := { xf := Transform.ident, clip := ⟨0, 0, w, h⟩ }, stack := [],
    bitmaps := [], shaders := [], filters := [], paints := [], paths := [],
    matrices := [], mHasDrawOps := false }

namespace DisplayListRenderer

/-- Modelled from the spec: `OpenGLRenderer::save` — push the current
transform/clip snapshot. -/
def baseSave (s : RecState) : RecState :=
  { s with stack := s.cur :: s.stack, mSaveCount := s.mSaveCount + 1 }

/-- Modelled from the spec: `OpenGLRenderer::restore` — pop one snapshot. -/
def basePop (s : RecState) : RecState :=
  match s.stack with
  | c :: st => { s with cur := c, stack := st, mSaveCount := s.mSaveCount - 1 }
  | [] => s

/-- Modelled from the spec: `OpenGLRenderer::restoreToCount` — pop snapshots
until the save count is back to `max n 1`. -/
def baseRestoreToCount (n : Int) (s : RecState) : RecState :=
  basePop^[(s.mSaveCount - max n 1).toNat] s

/-- Modelled from the spec: `OpenGLRenderer::translate` — concatenate the
translation onto the current snapshot's transform. -/
def baseTranslate (dx dy : ℚ) (s : RecState) : RecState :=
  { s with cur := { s.cur with xf := s.cur.xf.translateBy dx dy } }

/-- Modelled from the spec: `OpenGLRenderer::scale`. -/
def baseScale (sx sy : ℚ) (s : RecState) : RecState :=
  { s with cur := { s.cur with xf :=
      { s.cur.xf with m00 := s.cur.xf.m00 * sx, m10 := s.cur.xf.m10 * sx,
                      m01 := s.cur.xf.m01 * sy, m11 := s.cur.xf.m11 * sy } } }

def rectIntersect (a b : RectQ) : RectQ :=
  ⟨max a.left b.left, max a.top b.top, min a.right b.right, min a.bottom b.bottom⟩

/-- Modelled from the spec: `OpenGLRenderer::clipRect` — for the intersect
region op (`SkRegion::kIntersect_Op = 1`) the clip becomes the intersection
of the current clip with the transformed rectangle; other region ops leave
the modelled clip unchanged. -/
def baseClipRect (l t r b : ℚ) (regionOp : Int) (s : RecState) : RecState :=
  if regionOp = 1 then
    { s with cur := { s.cur with
        clip := rectIntersect s.cur.clip (s.cur.xf.mapRect ⟨l, t, r, b⟩) } }
  else s

/-- Modelled from the spec: `OpenGLRenderer::quickReject` — the operation's
axis-aligned bound, mapped by the current transform, is provably invisible
iff it does not intersect the current clip. -/
def quickReject (s : RecState) (l t r b : ℚ) : Bool :=
  ! ((s.cur.xf.mapRect ⟨l, t, r, b⟩).intersects s.cur.clip)

/-- Modelled from the spec: `insertRestoreToCount` (header) — if a restore is
pending, emit one `RestoreToCount` opcode carrying it and clear the pending
state (`restore()`/`restoreToCount()` defer their opcode through
`mRestoreSaveCount`; `finish()` and every `addOp` flush it). -/
def insertRestoreToCount (s : RecState) : RecState :=
  if s.mRestoreSaveCount ≥ 0 then
    { s with
      cells := s.cells ++ [Cell.i opRestoreToCount, Cell.i s.mRestoreSaveCount],
      mRestoreSaveCount := -1 }
  else s

/-- Modelled from the spec: `insertTranlate` (header; source spelling) — if a
coalesced translation is pending, emit one `Translate` opcode carrying the
accumulated deltas and reset them. -/
def insertTranlate (s : RecState) : RecState :=
  if s.mHasTranslate then
    { s with
      cells := s.cells ++
        [Cell.i opTranslate, Cell.f s.mTranslateX, Cell.f s.mTranslateY],
      mTranslateX := 0, mTranslateY := 0, mHasTranslate := false }
  else s

/-- Modelled from the spec: the plain `addOp` (header) — flush the deferred
restore and the pending translation (in `finish()`'s order,
DisplayListRenderer.cpp:1071-1074), then append the opcode word. -/
def addOp (opc : Int) (s : RecState) : RecState :=
  let s := insertTranlate (insertRestoreToCount s)
  { s with cells := s.cells ++ [Cell.i opc] }

/-- Modelled from the spec: the skippable `addOp`/`addSkip` pair (header) —
flush pending state; when the quick-reject decision is true, tag the opcode
with the skip bit and write the skip-length slot, patched (by `addSkip`)
with "the exact byte count written since reservation": 4 bytes per operand
word.  Otherwise write the plain opcode.  The operands follow either way. -/
def addOpSkippable (opc : Int) (reject : Bool) (operands : List Cell)
    (s : RecState) : RecState :=
  let s := insertTranlate (insertRestoreToCount s)
  let s := { s with mHasDrawOps := true }
  if reject then
    { s with cells := s.cells ++
        [Cell.i (opc + OP_MAY_BE_SKIPPED_MASK), Cell.i (4 * (operands.length : Int))]
        ++ operands }
  else
    { s with cells := s.cells ++ [Cell.i opc] ++ operands }

/-- Modelled from the spec: `addPaint` (header) — deduplicate by identity
within the session (repeated references reuse the same table slot) and return
the handle written into the stream. -/
def addPaintT (p : Paint) (s : RecState) : Nat × RecState :=
  match s.paints.findIdx? (fun q => q = p) with
  | some i => (i, s)
  | none => (s.paints.length, { s with paints := s.paints ++ [p] })

/-- Modelled from the spec: `addPath` (header) — deduplicated table entry. -/
def addPathT (p : PathH) (s : RecState) : Nat × RecState :=
  match s.paths.findIdx? (fun q => q = p) with
  | some i => (i, s)
  | none => (s.paths.length, { s with paths := s.paths ++ [p] })

/-- Modelled from the spec: `addBitmap` (header) — table entry for a shared,
reference-counted bitmap. -/
def addBitmapT (b : BitmapH) (s : RecState) : Nat × RecState :=
  match s.bitmaps.findIdx? (fun q => q = b) with
  | some i => (i, s)
  | none => (s.bitmaps.length, { s with bitmaps := s.bitmaps ++ [b] })

/-- Modelled from the spec: `addShader` (header, with `mShaderMap` dedup). -/
def addShaderT (h : Int) (s : RecState) : Nat × RecState :=
  match s.shaders.findIdx? (fun q => q = h) with
  | some i => (i, s)
  | none => (s.shaders.length, { s with shaders := s.shaders ++ [h] })

/-- Modelled from the spec: `addColorFilter` (header). -/
def addFilterT (h : Int) (s : RecState) : Nat × RecState :=
  match s.filters.findIdx? (fun q => q = h) with
  | some i => (i, s)
  | none => (s.filters.length, { s with filters := s.filters ++ [h] })

/-- `DisplayListRenderer::finish` (DisplayListRenderer.cpp:1071-1074). -/
def finish (s : RecState) : RecState :=
  insertTranlate (insertRestoreToCount s)

/-- `DisplayListRenderer::save` (1089-1093). -/
def save (flags : Int) (s : RecState) : RecState :=
  let s := addOp opSave s
  let s := { s with cells := s.cells ++ [Cell.i flags] }
  baseSave s

/-- `DisplayListRenderer::restoreToCount` (1106-1110). -/
def restoreToCount (saveCount : Int) (s : RecState) : RecState :=
  baseRestoreToCount saveCount
    (insertTranlate { s with mRestoreSaveCount := saveCount })

/-- `DisplayListRenderer::restore` (1095-1104). -/
def restore (s : RecState) : RecState :=
  if s.mRestoreSaveCount < 0 then
    restoreToCount (s.mSaveCount - 1) s
  else
    basePop (insertTranlate
      { s with mRestoreSaveCount := s.mRestoreSaveCount - 1 })

/-- `DisplayListRenderer::saveLayer` (1112-1119). -/
def saveLayer (l t r b : ℚ) (p : Paint) (flags : Int) (s : RecState) : RecState :=
  let s := addOp opSaveLayer s
  let (pi, s) := addPaintT p s
  let s := { s with cells := s.cells ++
      [Cell.f l, Cell.f t, Cell.f r, Cell.f b, Cell.i (pi : Int), Cell.i flags] }
  baseSave s

/-- `DisplayListRenderer::saveLayerAlpha` (1121-1128). -/
def saveLayerAlpha (l t r b : ℚ) (alpha flags : Int) (s : RecState) : RecState :=
  let s := addOp opSaveLayerAlpha s
  let s := { s with cells := s.cells ++
      [Cell.f l, Cell.f t, Cell.f r, Cell.f b, Cell.i alpha, Cell.i flags] }
  baseSave s

/-- `DisplayListRenderer::translate` (1130-1136): no opcode is emitted; the
deltas accumulate into the pending translation. -/
def translate (dx dy : ℚ) (s : RecState) : RecState :=
  let s := { s with mHasTranslate := true,
                    mTranslateX := s.mTranslateX + dx,
                    mTranslateY := s.mTranslateY + dy }
  baseTranslate dx dy (insertRestoreToCount s)

/-- `DisplayListRenderer::scale` (1144-1148). -/
def scale (sx sy : ℚ) (s : RecState) : RecState :=
  let s := addOp opScale s
  let s := { s with cells := s.cells ++ [Cell.f sx, Cell.f sy] }
  baseScale sx sy s

/-- `DisplayListRenderer::clipRect` (1168-1174). -/
def clipRect (l t r b : ℚ) (regionOp : Int) (s : RecState) : RecState :=
  let s := addOp opClipRect s
  let s := { s with cells := s.cells ++
      [Cell.f l, Cell.f t, Cell.f r, Cell.f b, Cell.i regionOp] }
  baseClipRect l t r b regionOp s

/-- `DisplayListRenderer::drawDisplayList` (1176-1187): quick-rejects the
`[0, 0, width, height]` bound, emits a skippable op, then the nested list
handle, the size, and the flags. -/
def drawDisplayList (handle : Int) (w h : Int) (flags : Int)
    (s : RecState) : RecState :=
  let reject := quickReject s 0 0 (w : ℚ) (h : ℚ)
  addOpSkippable opDrawDisplayList reject
    [Cell.i handle, Cell.i w, Cell.i h, Cell.i flags] s

/-- `DisplayListRenderer::drawBitmap` (1196-1203): quick-rejects the bitmap's
destination bound. -/
def drawBitmap (b : BitmapH) (left top : ℚ) (p : Paint) (s : RecState) : RecState :=
  let reject := quickReject s left top (left + b.bw) (top + b.bh)
  let (bi, s) := addBitmapT b s
  let (pi, s) := addPaintT p s
  addOpSkippable opDrawBitmap reject
    [Cell.i (bi : Int), Cell.f left, Cell.f top, Cell.i (pi : Int)] s

/-- `DisplayListRenderer::drawColor` (1260-1264). -/
def drawColor (color mode : Int) (s : RecState) : RecState :=
  let s := addOp opDrawColor s
  { s with cells := s.cells ++ [Cell.i color, Cell.i mode] }

/-- `DisplayListRenderer::drawRect` (1266-1274): quick-rejects only
fill-style paints (`SkPaint::kFill_Style`). -/
def drawRect (l t r b : ℚ) (p : Paint) (s : RecState) : RecState :=
  let reject := p.style = 0 && quickReject s l t r b
  let (pi, s) := addPaintT p s
  addOpSkippable opDrawRect reject
    [Cell.f l, Cell.f t, Cell.f r, Cell.f b, Cell.i (pi : Int)] s

/-- `DisplayListRenderer::drawRoundRect` (1276-1285). -/
def drawRoundRect (l t r b rx ry : ℚ) (p : Paint) (s : RecState) : RecState :=
  let reject := p.style = 0 && quickReject s l t r b
  let (pi, s) := addPaintT p s
  addOpSkippable opDrawRoundRect reject
    [Cell.f l, Cell.f t, Cell.f r, Cell.f b, Cell.f rx, Cell.f ry,
     Cell.i (pi : Int)] s

/-- `DisplayListRenderer::drawCircle` (1287-1292): no quick-reject. -/
def drawCircle (x y radius : ℚ) (p : Paint) (s : RecState) : RecState :=
  let s := addOp opDrawCircle s
  let (pi, s) := addPaintT p s
  { s with cells := s.cells ++
      [Cell.f x, Cell.f y, Cell.f radius, Cell.i (pi : Int)] }

/-- `DisplayListRenderer::drawOval` (1294-1299). -/
def drawOval (l t r b : ℚ) (p : Paint) (s : RecState) : RecState :=
  let s := addOp opDrawOval s
  let (pi, s) := addPaintT p s
  { s with cells := s.cells ++
      [Cell.f l, Cell.f t, Cell.f r, Cell.f b, Cell.i (pi : Int)] }

/-- `DisplayListRenderer::drawArc` (1301-1308). -/
def drawArc (l t r b startAngle sweepAngle : ℚ) (useCenter : Bool) (p : Paint)
    (s : RecState) : RecState :=
  let s := addOp opDrawArc s
  let (pi, s) := addPaintT p s
  { s with cells := s.cells ++
      [Cell.f l, Cell.f t, Cell.f r, Cell.f b, Cell.f startAngle,
       Cell.f sweepAngle, Cell.i (if useCenter then 1 else 0),
       Cell.i (pi : Int)] }

/-- Modelled from the spec: `computePathBounds` (OpenGLRenderer.h, absent
from src) — yields the path bound's left/top, the paint-dependent texture
outset, and the width and height of the outset bound. -/
def computePathBounds (p : PathH) (paint : Paint) : ℚ × ℚ × ℚ × ℚ × ℚ :=
  (p.inkL, p.inkT, paint.outset,
   p.inkR - p.inkL + 2 * paint.outset, p.inkB - p.inkT + 2 * paint.outset)

/-- `DisplayListRenderer::drawPath` (1310-1320).  Note the source passes
`width` and `height` — dimensions, not coordinates — as the `right`/`bottom`
arguments of `quickReject(left - offset, top - offset, width, height)`. -/
def drawPath (path : PathH) (p : Paint) (s : RecState) : RecState :=
  let (left, top, offset, width, height) := computePathBounds path p
  let reject := quickReject s (left - offset) (top - offset) width height
  let (phi, s) := addPathT path s
  let (pi, s) := addPaintT p s
  addOpSkippable opDrawPath reject [Cell.i (phi : Int), Cell.i (pi : Int)] s

/-- `DisplayListRenderer::drawLines` (1322-1326). -/
def drawLines (points : List ℚ) (count : Int) (p : Paint) (s : RecState) : RecState :=
  let s := addOp opDrawLines s
  let (pi, s) := addPaintT p s
  { s with cells := s.cells ++
      [Cell.i count] ++ (points.take count.toNat).map Cell.f ++ [Cell.i (pi : Int)] }

/-- `DisplayListRenderer::drawPoints` (1328-1332). -/
def drawPoints (points : List ℚ) (count : Int) (p : Paint) (s : RecState) : RecState :=
  let s := addOp opDrawPoints s
  let (pi, s) := addPaintT p s
  { s with cells := s.cells ++
      [Cell.i count] ++ (points.take count.toNat).map Cell.f ++ [Cell.i (pi : Int)] }

/-- `DisplayListRenderer::drawText` (1334-1362).  A null text pointer or a
non-positive glyph count returns before any state is touched.  The paint is
switched to anti-aliased, a negative `length` is replaced by the paint's
measured text advance, and left-aligned text is quick-rejected against its
font-metrics bound. -/
def drawText (text : Option (List Nat)) (bytesCount count : Int) (x y : ℚ)
    (p : Paint) (length : ℚ) (s : RecState) : RecState :=
  match text with
  | none => s
  | some bs =>
    if count ≤ 0 then s
    else
      let p := { p with antiAlias := true }
      let length := if length < 0 then p.measured else length
      let reject :=
        if p.align = 0 then
          quickReject s x (y + p.metricsTop) (x + length) (y + p.metricsBottom)
        else false
      let (pi, s) := addPaintT p s
      addOpSkippable opDrawText reject
        (textCells bs bytesCount ++
         [Cell.i count, Cell.f x, Cell.f y, Cell.i (pi : Int), Cell.f length]) s

/-- `DisplayListRenderer::drawTextOnPath` (1364-1375): same null/count guard;
no quick-reject. -/
def drawTextOnPath (text : Option (List Nat)) (bytesCount count : Int)
    (path : PathH) (hOffset vOffset : ℚ) (p : Paint) (s : RecState) : RecState :=
  match text with
  | none => s
  | some bs =>
    if count ≤ 0 then s
    else
      let s := addOp opDrawTextOnPath s
      let (phi, s) := addPathT path s
      let p := { p with antiAlias := true }
      let (pi, s) := addPaintT p s
      { s with cells := s.cells ++ textCells bs bytesCount ++
          [Cell.i count, Cell.i (phi : Int), Cell.f hOffset, Cell.f vOffset,
           Cell.i (pi : Int)] }

/-- `DisplayListRenderer::drawPosText` (1377-1386): same null/count guard;
no quick-reject; positions are written as a `count * 2`-length float
array. -/
def drawPosText (text : Option (List Nat)) (bytesCount count : Int)
    (positions : List ℚ) (p : Paint) (s : RecState) : RecState :=
  match text with
  | none => s
  | some bs =>
    if count ≤ 0 then s
    else
      let s := addOp opDrawPosText s
      let p := { p with antiAlias := true }
      let (pi, s) := addPaintT p s
      { s with cells := s.cells ++ textCells bs bytesCount ++
          [Cell.i count, Cell.i (count * 2)] ++
          ((positions.take (count * 2).toNat).map Cell.f) ++ [Cell.i (pi : Int)] }

/-- `DisplayListRenderer::resetShader` (1388-1390). -/
def resetShader (s : RecState) : RecState := addOp opResetShader s

/-- `DisplayListRenderer::setupShader` (1392-1395). -/
def setupShader (h : Int) (s : RecState) : RecState :=
  let s := addOp opSetupShader s
  let (si, s) := addShaderT h s
  { s with cells := s.cells ++ [Cell.i (si : Int)] }

/-- `DisplayListRenderer::resetColorFilter` (1397-1399). -/
def resetColorFilter (s : RecState) : RecState := addOp opResetColorFilter s

/-- `DisplayListRenderer::setupColorFilter` (1401-1404). -/
def setupColorFilter (h : Int) (s : RecState) : RecState :=
  let s := addOp opSetupColorFilter s
  let (fi, s) := addFilterT h s
  { s with cells := s.cells ++ [Cell.i (fi : Int)] }

/-- `DisplayListRenderer::resetShadow` (1406-1408). -/
def resetShadow (s : RecState) : RecState := addOp opResetShadow s

/-- `DisplayListRenderer::setupShadow` (1410-1415). -/
def setupShadow (radius dx dy : ℚ) (color : Int) (s : RecState) : RecState :=
  let s := addOp opSetupShadow s
  { s with cells := s.cells ++
      [Cell.f radius, Cell.f dx, Cell.f dy, Cell.i color] }

/-- `DisplayListRenderer::resetPaintFilter` (1417-1419). -/
def resetPaintFilter (s : RecState) : RecState := addOp opResetPaintFilter s

/-- `DisplayListRenderer::setupPaintFilter` (1421-1425). -/
def setupPaintFilter (clearBits setBits : Int) (s : RecState) : RecState :=
  let s := addOp opSetupPaintFilter s
  { s with cells := s.cells ++ [Cell.i clearBits, Cell.i setBits] }

/-- `DisplayListRenderer::reset` (1010-1039): reset the writer, release the
recorder's own shared-resource references, clear every table and map. -/
def reset (s : RecState) (cache : Cache) : RecState × Cache :=
  let cache := s.bitmaps.foldl (fun c b => decrementRefcount b.hid c) cache
  let cache := s.filters.foldl (fun c h => decrementRefcount h c) cache
  let cache := s.shaders.foldl (fun c h => decrementRefcount h c) cache
  ({ s with cells := [], bitmaps := [], filters := [], shaders := [],
            paints := [], paths := [], matrices := [], mHasDrawOps := false },
   cache)

end DisplayListRenderer

/-! ### Command List lifetime (`DisplayList::clearResources` / `init…`) -/

/-- `DisplayList::clearResources` (DisplayListRenderer.cpp:111-148): free the
buffer, release one shared reference per bitmap table entry, per color-filter
entry and per shader entry (shaders additionally get
`resourceCache.destructor`, which defers destruction of the underlying
object until the refcount reaches zero and does not change the count), and
delete the exclusively owned paints, paths and matrices. -/
def DisplayList.clearResources (dl : DisplayList) (cache : Cache) :
    DisplayList × Cache :=
  let cache := dl.bitmaps.foldl (fun c b => decrementRefcount b.hid c) cache
  let cache := dl.filters.foldl (fun c h => decrementRefcount h c) cache
  let cache := dl.shaders.foldl (fun c h => decrementRefcount h c) cache
  ({ dl with cells := [], bitmaps := [], filters := [], shaders := [],
             paints := [], paths := [], matrices := [] },
   cache)

/-- `DisplayList::init` (207-210). -/
def DisplayList.initDL (dl : DisplayList) : DisplayList :=
  { dl with size := 0, renderable := true }

/-- `DisplayList::initFromDisplayListRenderer` (150-205): reset size; if the
recorder's stream is empty, return at once; otherwise, when re-using, clear
the previous session's resources first; then copy the stream and retain one
shared reference per bitmap, color-filter and shader table entry, and take
over the owned paints, paths and matrices. -/
def DisplayList.initFromDisplayListRenderer (dl : DisplayList)
    (recorder : RecState) (reusing : Bool) (cache : Cache) :
    DisplayList × Cache :=
  let dl := dl.initDL
  if recorder.cells.length = 0 then (dl, cache)
  else
    let (dl, cache) := if reusing then dl.clearResources cache else (dl, cache)
    let dl := { dl with size := 4 * recorder.cells.length,
                        cells := recorder.cells }
    let cache := recorder.bitmaps.foldl
      (fun c b => incrementRefcount b.hid c) cache
    let dl := { dl with bitmaps := recorder.bitmaps }
    let cache := recorder.filters.foldl
      (fun c h => incrementRefcount h c) cache
    let dl := { dl with filters := recorder.filters }
    let cache := recorder.shaders.foldl
      (fun c h => incrementRefcount h c) cache
    let dl := { dl with shaders := recorder.shaders,
                        paints := recorder.paints, paths := recorder.paths,
                        matrices := recorder.matrices }
    (dl, cache)

/-- `DisplayListRenderer::getDisplayList` (1045-1053): finalize the session
into a fresh list (the `DisplayList(recorder)` constructor) or re-initialize
an existing one (`reusing = true`), and set its renderable flag. -/
def getDisplayList (displayList : Option DisplayList) (s : RecState)
    (cache : Cache) : DisplayList × Cache :=
  let (dl, cache) :=
    match displayList with
    | none => emptyDisplayList.initFromDisplayListRenderer s false cache
    | some dl => dl.initFromDisplayListRenderer s true cache
  ({ dl with renderable := s.mHasDrawOps }, cache)

/-! ### Encoded operations

An `EncOp` is one well-formed encoded operation: the opcode together with its
operand payload, resource operands as table indices.  `EncOp.args` is its
operand byte layout (exactly the layout the recorder writes and `replay`
reads), `EncOp.call` the executor invocation `replay`'s case makes for it,
and `EncOp.valid` the condition that its resource slots are populated. -/

inductive EncOp where
  | saveE (flags : Int)
  | restoreE
  | restoreToCountE (n : Int)
  | saveLayerE (f1 f2 f3 f4 : ℚ) (pIdx : Nat) (flags : Int)
  | saveLayerAlphaE (f1 f2 f3 f4 : ℚ) (alpha flags : Int)
  | translateE (dx dy : ℚ)
  | rotateE (d : ℚ)
  | scaleE (sx sy : ℚ)
  | skewE (sx sy : ℚ)
  | setMatrixE (mIdx : Nat)
  | concatMatrixE (mIdx : Nat)
  | clipRectE (f1 f2 f3 f4 : ℚ) (regionOp : Int)
  | drawDisplayListE (handle w h flags : Int)
  | drawLayerE (layer : Int) (x y : ℚ) (pIdx : Nat)
  | drawBitmapE (bIdx : Nat) (x y : ℚ) (pIdx : Nat)
  | drawBitmapMatrixE (bIdx mIdx pIdx : Nat)
  | drawBitmapRectE (bIdx : Nat) (f1 f2 f3 f4 f5 f6 f7 f8 : ℚ) (pIdx : Nat)
  | drawBitmapMeshE (bIdx : Nat) (mw mh : Int) (vertices : List ℚ)
      (colors : Option (List Int)) (pIdx : Nat)
  | drawPatchE (bIdx : Nat) (xDivs yDivs colors : List Int) (l t r b : ℚ)
      (pIdx : Nat)
  | drawColorE (color mode : Int)
  | drawRectE (f1 f2 f3 f4 : ℚ) (pIdx : Nat)
  | drawRoundRectE (f1 f2 f3 f4 f5 f6 : ℚ) (pIdx : Nat)
  | drawCircleE (f1 f2 f3 : ℚ) (pIdx : Nat)
  | drawOvalE (f1 f2 f3 f4 : ℚ) (pIdx : Nat)
  | drawArcE (f1 f2 f3 f4 f5 f6 : ℚ) (i1 : Int) (pIdx : Nat)
  | drawPathE (phIdx pIdx : Nat)
  | drawLinesE (points : List ℚ) (pIdx : Nat)
  | drawPointsE (points : List ℚ) (pIdx : Nat)
  | drawTextE (bs : List Nat) (count : Int) (x y : ℚ) (pIdx : Nat) (length : ℚ)
  | drawTextOnPathE (bs : List Nat) (count : Int) (phIdx : Nat)
      (hOffset vOffset : ℚ) (pIdx : Nat)
  | drawPosTextE (bs : List Nat) (count : Int) (positions : List ℚ) (pIdx : Nat)
  | resetShaderE
  | setupShaderE (sIdx : Nat)
  | resetColorFilterE
  | setupColorFilterE (fIdx : Nat)
  | resetShadowE
  | setupShadowE (radius dx dy : ℚ) (color : Int)
  | resetPaintFilterE
  | setupPaintFilterE (clearBits setBits : Int)
  | callDrawGLFunctionE (functor : Int)
  deriving DecidableEq, Repr

namespace EncOp

def val : EncOp → Int
  | saveE _ => opSave
  | restoreE => opRestore
  | restoreToCountE _ => opRestoreToCount
  | saveLayerE _ _ _ _ _ _ => opSaveLayer
  | saveLayerAlphaE _ _ _ _ _ _ => opSaveLayerAlpha
  | translateE _ _ => opTranslate
  | rotateE _ => opRotate
  | scaleE _ _ => opScale
  | skewE _ _ => opSkew
  | setMatrixE _ => opSetMatrix
  | concatMatrixE _ => opConcatMatrix
  | clipRectE _ _ _ _ _ => opClipRect
  | drawDisplayListE _ _ _ _ => opDrawDisplayList
  | drawLayerE _ _ _ _ => opDrawLayer
  | drawBitmapE _ _ _ _ => opDrawBitmap
  | drawBitmapMatrixE _ _ _ => opDrawBitmapMatrix
  | drawBitmapRectE _ _ _ _ _ _ _ _ _ _ => opDrawBitmapRect
  | drawBitmapMeshE _ _ _ _ _ _ => opDrawBitmapMesh
  | drawPatchE _ _ _ _ _ _ _ _ _ => opDrawPatch
  | drawColorE _ _ => opDrawColor
  | drawRectE _ _ _ _ _ => opDrawRect
  | drawRoundRectE _ _ _ _ _ _ _ => opDrawRoundRect
  | drawCircleE _ _ _ _ => opDrawCircle
  | drawOvalE _ _ _ _ _ => opDrawOval
  | drawArcE _ _ _ _ _ _ _ _ => opDrawArc
  | drawPathE _ _ => opDrawPath
  | drawLinesE _ _ => opDrawLines
  | drawPointsE _ _ => opDrawPoints
  | drawTextE _ _ _ _ _ _ => opDrawText
  | drawTextOnPathE _ _ _ _ _ _ => opDrawTextOnPath
  | drawPosTextE _ _ _ _ => opDrawPosText
  | resetShaderE => opResetShader
  | setupShaderE _ => opSetupShader
  | resetColorFilterE => opResetColorFilter
  | setupColorFilterE _ => opSetupColorFilter
  | resetShadowE => opResetShadow
  | setupShadowE _ _ _ _ => opSetupShadow
  | resetPaintFilterE => opResetPaintFilter
  | setupPaintFilterE _ _ => opSetupPaintFilter
  | callDrawGLFunctionE _ => opDrawGLFunction

/-- The operand words of the operation, in the layout the recorder writes
(`add*` helpers) and `replay` decodes. -/
def args : EncOp → List Cell
  | saveE flags => [Cell.i flags]
  | restoreE => []
  | restoreToCountE n => [Cell.i n]
  | saveLayerE f1 f2 f3 f4 pIdx flags =>
      [Cell.f f1, Cell.f f2, Cell.f f3, Cell.f f4, Cell.i (pIdx : Int),
       Cell.i flags]
  | saveLayerAlphaE f1 f2 f3 f4 alpha flags =>
      [Cell.f f1, Cell.f f2, Cell.f f3, Cell.f f4, Cell.i alpha, Cell.i flags]
  | translateE dx dy => [Cell.f dx, Cell.f dy]
  | rotateE d => [Cell.f d]
  | scaleE sx sy => [Cell.f sx, Cell.f sy]
  | skewE sx sy => [Cell.f sx, Cell.f sy]
  | setMatrixE mIdx => [Cell.i (mIdx : Int)]
  | concatMatrixE mIdx => [Cell.i (mIdx : Int)]
  | clipRectE f1 f2 f3 f4 rop =>
      [Cell.f f1, Cell.f f2, Cell.f f3, Cell.f f4, Cell.i rop]
  | drawDisplayListE handle w h flags =>
      [Cell.i handle, Cell.i w, Cell.i h, Cell.i flags]
  | drawLayerE layer x y pIdx =>
      [Cell.i layer, Cell.f x, Cell.f y, Cell.i (pIdx : Int)]
  | drawBitmapE bIdx x y pIdx =>
      [Cell.i (bIdx : Int), Cell.f x, Cell.f y, Cell.i (pIdx : Int)]
  | drawBitmapMatrixE bIdx mIdx pIdx =>
      [Cell.i (bIdx : Int), Cell.i (mIdx : Int), Cell.i (pIdx : Int)]
  | drawBitmapRectE bIdx f1 f2 f3 f4 f5 f6 f7 f8 pIdx =>
      [Cell.i (bIdx : Int), Cell.f f1, Cell.f f2, Cell.f f3, Cell.f f4,
       Cell.f f5, Cell.f f6, Cell.f f7, Cell.f f8, Cell.i (pIdx : Int)]
  | drawBitmapMeshE bIdx mw mh vertices colors pIdx =>
      [Cell.i (bIdx : Int), Cell.i mw, Cell.i mh,
       Cell.i (vertices.length : Int)] ++ vertices.map Cell.f ++
      (match colors with
       | none => [Cell.i 0]
       | some cs => [Cell.i 1, Cell.i (cs.length : Int)] ++ cs.map Cell.i) ++
      [Cell.i (pIdx : Int)]
  | drawPatchE bIdx xDivs yDivs colors l t r b pIdx =>
      [Cell.i (bIdx : Int), Cell.i (xDivs.length : Int)] ++ xDivs.map Cell.i ++
      [Cell.i (yDivs.length : Int)] ++ yDivs.map Cell.i ++
      [Cell.i (colors.length : Int)] ++ colors.map Cell.i ++
      [Cell.f l, Cell.f t, Cell.f r, Cell.f b, Cell.i (pIdx : Int)]
  | drawColorE color mode => [Cell.i color, Cell.i mode]
  | drawRectE f1 f2 f3 f4 pIdx =>
      [Cell.f f1, Cell.f f2, Cell.f f3, Cell.f f4, Cell.i (pIdx : Int)]
  | drawRoundRectE f1 f2 f3 f4 f5 f6 pIdx =>
      [Cell.f f1, Cell.f f2, Cell.f f3, Cell.f f4, Cell.f f5, Cell.f f6,
       Cell.i (pIdx : Int)]
  | drawCircleE f1 f2 f3 pIdx =>
      [Cell.f f1, Cell.f f2, Cell.f f3, Cell.i (pIdx : Int)]
  | drawOvalE f1 f2 f3 f4 pIdx =>
      [Cell.f f1, Cell.f f2, Cell.f f3, Cell.f f4, Cell.i (pIdx : Int)]
  | drawArcE f1 f2 f3 f4 f5 f6 i1 pIdx =>
      [Cell.f f1, Cell.f f2, Cell.f f3, Cell.f f4, Cell.f f5, Cell.f f6,
       Cell.i i1, Cell.i (pIdx : Int)]
  | drawPathE phIdx pIdx => [Cell.i (phIdx : Int), Cell.i (pIdx : Int)]
  | drawLinesE points pIdx =>
      [Cell.i (points.length : Int)] ++ points.map Cell.f ++
      [Cell.i (pIdx : Int)]
  | drawPointsE points pIdx =>
      [Cell.i (points.length : Int)] ++ points.map Cell.f ++
      [Cell.i (pIdx : Int)]
  | drawTextE bs count x y pIdx length =>
      Cell.i (bs.length : Int) :: chunk4 bs ++
      [Cell.i count, Cell.f x, Cell.f y, Cell.i (pIdx : Int), Cell.f length]
  | drawTextOnPathE bs count phIdx hOffset vOffset pIdx =>
      Cell.i (bs.length : Int) :: chunk4 bs ++
      [Cell.i count, Cell.i (phIdx : Int), Cell.f hOffset, Cell.f vOffset,
       Cell.i (pIdx : Int)]
  | drawPosTextE bs count positions pIdx =>
      Cell.i (bs.length : Int) :: chunk4 bs ++
      [Cell.i count, Cell.i (positions.length : Int)] ++
      positions.map Cell.f ++ [Cell.i (pIdx : Int)]
  | resetShaderE => []
  | setupShaderE sIdx => [Cell.i (sIdx : Int)]
  | resetColorFilterE => []
  | setupColorFilterE fIdx => [Cell.i (fIdx : Int)]
  | resetShadowE => []
  | setupShadowE radius dx dy color =>
      [Cell.f radius, Cell.f dx, Cell.f dy, Cell.i color]
  | resetPaintFilterE => []
  | setupPaintFilterE clearBits setBits => [Cell.i clearBits, Cell.i setBits]
  | callDrawGLFunctionE functor => [Cell.i functor]

end EncOp

def paintAt (dl : DisplayList) (i : Nat) : Paint := (dl.paints.get? i).getD default

def pathAt (dl : DisplayList) (i : Nat) : PathH := (dl.paths.get? i).getD default

def bitmapAt (dl : DisplayList) (i : Nat) : BitmapH := (dl.bitmaps.get? i).getD default

def matrixAt (dl : DisplayList) (i : Nat) : Int := (dl.matrices.get? i).getD 0

def shaderAt (dl : DisplayList) (i : Nat) : Int := (dl.shaders.get? i).getD 0

def filterAt (dl : DisplayList) (i : Nat) : Int := (dl.filters.get? i).getD 0

namespace EncOp

/-- The resource slots the operation references are populated in the list's
tables. -/
def valid (dl : DisplayList) : EncOp → Prop
  | saveE _ => True
  | restoreE => True
  | restoreToCountE _ => True
  | saveLayerE _ _ _ _ pIdx _ => pIdx < dl.paints.length
  | saveLayerAlphaE _ _ _ _ _ _ => True
  | translateE _ _ => True
  | rotateE _ => True
  | scaleE _ _ => True
  | skewE _ _ => True
  | setMatrixE mIdx => mIdx < dl.matrices.length
  | concatMatrixE mIdx => mIdx < dl.matrices.length
  | clipRectE _ _ _ _ _ => True
  | drawDisplayListE _ _ _ _ => True
  | drawLayerE _ _ _ pIdx => pIdx < dl.paints.length
  | drawBitmapE bIdx _ _ pIdx =>
      bIdx < dl.bitmaps.length ∧ pIdx < dl.paints.length
  | drawBitmapMatrixE bIdx mIdx pIdx =>
      bIdx < dl.bitmaps.length ∧ mIdx < dl.matrices.length ∧
      pIdx < dl.paints.length
  | drawBitmapRectE bIdx _ _ _ _ _ _ _ _ pIdx =>
      bIdx < dl.bitmaps.length ∧ pIdx < dl.paints.length
  | drawBitmapMeshE bIdx _ _ _ _ pIdx =>
      bIdx < dl.bitmaps.length ∧ pIdx < dl.paints.length
  | drawPatchE bIdx _ _ _ _ _ _ _ pIdx =>
      bIdx < dl.bitmaps.length ∧ pIdx < dl.paints.length
  | drawColorE _ _ => True
  | drawRectE _ _ _ _ pIdx => pIdx < dl.paints.length
  | drawRoundRectE _ _ _ _ _ _ pIdx => pIdx < dl.paints.length
  | drawCircleE _ _ _ pIdx => pIdx < dl.paints.length
  | drawOvalE _ _ _ _ pIdx => pIdx < dl.paints.length
  | drawArcE _ _ _ _ _ _ _ pIdx => pIdx < dl.paints.length
  | drawPathE phIdx pIdx =>
      phIdx < dl.paths.length ∧ pIdx < dl.paints.length
  | drawLinesE _ pIdx => pIdx < dl.paints.length
  | drawPointsE _ pIdx => pIdx < dl.paints.length
  | drawTextE _ _ _ _ pIdx _ => pIdx < dl.paints.length
  | drawTextOnPathE _ _ phIdx _ _ pIdx =>
      phIdx < dl.paths.length ∧ pIdx < dl.paints.length
  | drawPosTextE _ _ _ pIdx => pIdx < dl.paints.length
  | resetShaderE => True
  | setupShaderE sIdx => sIdx < dl.shaders.length
  | resetColorFilterE => True
  | setupColorFilterE fIdx => fIdx < dl.filters.length
  | resetShadowE => True
  | setupShadowE _ _ _ _ => True
  | resetPaintFilterE => True
  | setupPaintFilterE _ _ => True
  | callDrawGLFunctionE _ => True

/-- The executor invocation `replay` makes for this operation (`saveCount` is
the captured `renderer.getSaveCount() - 1`). -/
def call (dl : DisplayList) (saveCount : Int) : EncOp → Call
  | saveE flags => Call.save flags
  | restoreE => Call.restore
  | restoreToCountE n => Call.restoreToCount (saveCount + n)
  | saveLayerE f1 f2 f3 f4 pIdx flags =>
      Call.saveLayer f1 f2 f3 f4 (paintAt dl pIdx) flags
  | saveLayerAlphaE f1 f2 f3 f4 alpha flags =>
      Call.saveLayerAlpha f1 f2 f3 f4 alpha flags
  | translateE dx dy => Call.translate dx dy
  | rotateE d => Call.rotate d
  | scaleE sx sy => Call.scale sx sy
  | skewE sx sy => Call.skew sx sy
  | setMatrixE mIdx => Call.setMatrix (matrixAt dl mIdx)
  | concatMatrixE mIdx => Call.concatMatrix (matrixAt dl mIdx)
  | clipRectE f1 f2 f3 f4 rop => Call.clipRect f1 f2 f3 f4 rop
  | drawDisplayListE handle w h flags => Call.drawDisplayList handle w h flags
  | drawLayerE layer x y pIdx => Call.drawLayer layer x y (paintAt dl pIdx)
  | drawBitmapE bIdx x y pIdx =>
      Call.drawBitmap (bitmapAt dl bIdx) x y (paintAt dl pIdx)
  | drawBitmapMatrixE bIdx mIdx pIdx =>
      Call.drawBitmapMatrix (bitmapAt dl bIdx) (matrixAt dl mIdx)
        (paintAt dl pIdx)
  | drawBitmapRectE bIdx f1 f2 f3 f4 f5 f6 f7 f8 pIdx =>
      Call.drawBitmapRect (bitmapAt dl bIdx) f1 f2 f3 f4 f5 f6 f7 f8
        (paintAt dl pIdx)
  | drawBitmapMeshE bIdx mw mh vertices colors pIdx =>
      Call.drawBitmapMesh (bitmapAt dl bIdx) mw mh vertices colors
        (paintAt dl pIdx)
  | drawPatchE bIdx xDivs yDivs colors l t r b pIdx =>
      Call.drawPatch (bitmapAt dl bIdx) xDivs yDivs colors
        (xDivs.length : Int) (yDivs.length : Int) (colors.length : Int)
        l t r b (paintAt dl pIdx)
  | drawColorE color mode => Call.drawColor color mode
  | drawRectE f1 f2 f3 f4 pIdx => Call.drawRect f1 f2 f3 f4 (paintAt dl pIdx)
  | drawRoundRectE f1 f2 f3 f4 f5 f6 pIdx =>
      Call.drawRoundRect f1 f2 f3 f4 f5 f6 (paintAt dl pIdx)
  | drawCircleE f1 f2 f3 pIdx => Call.drawCircle f1 f2 f3 (paintAt dl pIdx)
  | drawOvalE f1 f2 f3 f4 pIdx => Call.drawOval f1 f2 f3 f4 (paintAt dl pIdx)
  | drawArcE f1 f2 f3 f4 f5 f6 i1 pIdx =>
      Call.drawArc f1 f2 f3 f4 f5 f6 (i1 = 1) (paintAt dl pIdx)
  | drawPathE phIdx pIdx => Call.drawPath (pathAt dl phIdx) (paintAt dl pIdx)
  | drawLinesE points pIdx =>
      Call.drawLines points (points.length : Int) (paintAt dl pIdx)
  | drawPointsE points pIdx =>
      Call.drawPoints points (points.length : Int) (paintAt dl pIdx)
  | drawTextE bs count x y pIdx length =>
      Call.drawText bs (bs.length : Int) count x y (paintAt dl pIdx) length
  | drawTextOnPathE bs count phIdx hOffset vOffset pIdx =>
      Call.drawTextOnPath bs (bs.length : Int) count (pathAt dl phIdx)
        hOffset vOffset (paintAt dl pIdx)
  | drawPosTextE bs count positions pIdx =>
      Call.drawPosText bs (bs.length : Int) count positions (paintAt dl pIdx)
  | resetShaderE => Call.resetShader
  | setupShaderE sIdx => Call.setupShader (shaderAt dl sIdx)
  | resetColorFilterE => Call.resetColorFilter
  | setupColorFilterE fIdx => Call.setupColorFilter (filterAt dl fIdx)
  | resetShadowE => Call.resetShadow
  | setupShadowE radius dx dy color => Call.setupShadow radius dx dy color
  | resetPaintFilterE => Call.resetPaintFilter
  | setupPaintFilterE clearBits setBits =>
      Call.setupPaintFilter clearBits setBits
  | callDrawGLFunctionE functor => Call.callDrawGLFunction functor

end EncOp

/-- Encode one operation, optionally tagged skippable: the tagged form is
`[opcode | skip-bit][skip-length][operands]` with the skip-length holding the
operand byte count, the untagged form `[opcode][operands]`. -/
def encT (p : Bool × EncOp) : List Cell :=
  if p.1 then
    Cell.i (p.2.val + OP_MAY_BE_SKIPPED_MASK) ::
    Cell.i (4 * (p.2.args.length : Int)) :: p.2.args
  else
    Cell.i p.2.val :: p.2.args

/-- Encode a sequence of operations into a stream. -/
def encTList (l : List (Bool × EncOp)) : List Cell := l.flatMap encT

/-- The word-aligned pieces of a byte string, as `chunk4` produces them. -/
def chunkParts : List Nat → List (List Nat)
  | [] => []
  | [a] => [[a, 0, 0, 0]]
  | [a, b] => [[a, b, 0, 0]]
  | [a, b, c] => [[a, b, c, 0]]
  | a :: b :: c :: d :: rest => [a, b, c, d] :: chunkParts rest

/-- The cells after flushing the deferred restore and the pending
translation, as every `addOp` and `finish` do. -/
def flushCells (s : RecState) : List Cell :=
  (DisplayListRenderer.insertTranlate (DisplayListRenderer.insertRestoreToCount s)).cells

/-- A run of consecutive `translate` calls. -/
def applyTranslates (ps : List (ℚ × ℚ)) (s : RecState) : RecState :=
  ps.foldl (fun s p => DisplayListRenderer.translate p.1 p.2 s) s

/-! ### Concrete inputs used in the claim theorems -/

/-- A fill-style, left-aligned paint. -/
def paintA : Paint :=
  { pid := 1, style := 0, align := 0, antiAlias := false,
    metricsTop := -8, metricsBottom := 2, measured := 10, outset := 1 }

def bmp0 : BitmapH := ⟨5, 10, 10⟩

/-- A path whose ink covers `[500, 510] × [500, 510]`. -/
def path0 : PathH := ⟨9, 500, 500, 510, 510⟩

def zeroCache : Cache := fun _ => 0

/-- Scenario 1 (spec §8): record
`save(); translate(10,20); drawRect(0,0,5,5,paintA); restore();` on a
100×100 viewport, then finish. -/
def scenario1Rec : RecState :=
  DisplayListRenderer.finish
    (DisplayListRenderer.restore
      (DisplayListRenderer.drawRect 0 0 5 5 paintA
        (DisplayListRenderer.translate 10 20
          (DisplayListRenderer.save 31 (initRec 100 100)))))

def scenario1DL : DisplayList := (getDisplayList none scenario1Rec zeroCache).1

/-- The encoded operations of scenario 1. -/
def scenario1Ops : List (Bool × EncOp) :=
  [(false, EncOp.saveE 31), (false, EncOp.translateE 10 20),
   (false, EncOp.drawRectE 0 0 5 5 0), (false, EncOp.restoreToCountE 1)]

/-- Scenario 2 (spec §8): record `drawRect(1000,1000,1010,1010, fill paint)`
while the clip is `[0, 0, 100, 100]`. -/
def culledRec : RecState :=
  DisplayListRenderer.drawRect 1000 1000 1010 1010 paintA (initRec 100 100)

def culledDL : DisplayList := (getDisplayList none culledRec zeroCache).1

/-- A buffer starting with the out-of-range opcode value 99 followed by a
well-formed `Save` operation. -/
def unknownOpDL : DisplayList :=
  { emptyDisplayList with cells := [Cell.i 99, Cell.i 0, Cell.i 31] }

/-- A buffer holding one `DrawPosText` operation: text "abc" (3 bytes), glyph
count 1, one position pair, paint slot 0. -/
def posTextDL : DisplayList :=
  { emptyDisplayList with
    cells := [Cell.i 30, Cell.i 3, Cell.chunk [97, 98, 99, 0], Cell.i 1,
              Cell.i 2, Cell.f 4, Cell.f 7, Cell.i 0],
    paints := [paintA] }

/-- A recording session whose current clip is `[500, 500, 600, 600]` (on a
1000×1000 viewport). -/
def clip500Rec : RecState :=
  DisplayListRenderer.clipRect 500 500 600 600 1 (initRec 1000 1000)

/-- A session that references `bmp0` once (used for the refcount scenario). -/
def bmpSessionRec : RecState :=
  DisplayListRenderer.drawBitmap bmp0 0 0 paintA (initRec 100 100)

/-- A finalized list holding one reference to bitmap 7 (for the re-init
scenario), together with a cache in which that bitmap's refcount is 1. -/
def heldDL : DisplayList :=
  { emptyDisplayList with bitmaps := [⟨7, 10, 10⟩], size := 40 }

def heldCache : Cache := fun x => if x = 7 then 1 else 0

/-! ## Decoding lemmas -/

theorem rdI_cons (n : Int) (r : List Cell) : rdI (Cell.i n :: r) = some (n, r) := rfl

theorem rdF_cons (q : ℚ) (r : List Cell) : rdF (Cell.f q :: r) = some (q, r) := rfl

theorem allFloats_map (qs : List ℚ) : allFloats (qs.map Cell.f) = some qs := by
  induction qs with
  | nil => rfl
  | cons q qs ih => simp [allFloats, ih]

theorem allInts_map (ns : List Int) : allInts (ns.map Cell.i) = some ns := by
  induction ns with
  | nil => rfl
  | cons n ns ih => simp [allInts, ih]

theorem rdFs_enc (qs : List ℚ) (tail : List Cell) :
    rdFs (Cell.i (qs.length : Int) :: (qs.map Cell.f ++ tail)) =
      some (qs, (qs.length : Int), tail) := by
  have hlen : (qs.map Cell.f).length = qs.length := List.length_map _ _
  simp [rdFs, rdI, Int.toNat_natCast, List.take_left' hlen, List.drop_left' hlen,
    allFloats_map]

theorem rdIs_enc (ns : List Int) (tail : List Cell) :
    rdIs (Cell.i (ns.length : Int) :: (ns.map Cell.i ++ tail)) =
      some (ns, (ns.length : Int), tail) := by
  have hlen : (ns.map Cell.i).length = ns.length := List.length_map _ _
  simp [rdIs, rdI, Int.toNat_natCast, List.take_left' hlen, List.drop_left' hlen,
    allInts_map]

theorem allChunks_chunk4 (bs : List Nat) :
    allChunks (chunk4 bs) = some (chunkParts bs) := by
  induction bs using chunk4.induct with
  | case1 => rfl
  | case2 a => rfl
  | case3 a b => rfl
  | case4 a b c => rfl
  | case5 a b c d rest ih => simp [chunk4, chunkParts, allChunks, ih]

theorem chunkParts_flatten_take (bs : List Nat) :
    (chunkParts bs).flatten.take bs.length = bs := by
  induction bs using chunk4.induct with
  | case1 => rfl
  | case2 a => rfl
  | case3 a b => rfl
  | case4 a b c => rfl
  | case5 a b c d rest ih => simp [chunkParts, List.take_cons, ih]

theorem chunk4_length (bs : List Nat) :
    (chunk4 bs).length = (bs.length + 3) / 4 := by
  induction bs using chunk4.induct with
  | case1 => rfl
  | case2 a => simp [chunk4]
  | case3 a b => simp [chunk4]
  | case4 a b c => simp [chunk4]
  | case5 a b c d rest ih =>
    simp [chunk4, ih]
    omega

theorem rdText_enc (bs : List Nat) (tail : List Cell) :
    rdText (Cell.i (bs.length : Int) :: (chunk4 bs ++ tail)) =
      some (bs, (bs.length : Int), tail) := by
  have hlen : (bs.length + 3) / 4 = (chunk4 bs).length := (chunk4_length bs).symm
  simp [rdText, rdI, Int.toNat_natCast, hlen, List.take_left, List.drop_left,
    allChunks_chunk4, chunkParts_flatten_take]

theorem rdPaint_enc (dl : DisplayList) (i : Nat) (r : List Cell)
    (h : i < dl.paints.length) :
    rdPaint dl (Cell.i (i : Int) :: r) = some (paintAt dl i, r) := by
  simp [rdPaint, rdI, Int.toNat_natCast, paintAt, List.getElem?_eq_getElem h]

theorem rdPath_enc (dl : DisplayList) (i : Nat) (r : List Cell)
    (h : i < dl.paths.length) :
    rdPath dl (Cell.i (i : Int) :: r) = some (pathAt dl i, r) := by
  simp [rdPath, rdI, Int.toNat_natCast, pathAt, List.getElem?_eq_getElem h]

theorem rdBitmap_enc (dl : DisplayList) (i : Nat) (r : List Cell)
    (h : i < dl.bitmaps.length) :
    rdBitmap dl (Cell.i (i : Int) :: r) = some (bitmapAt dl i, r) := by
  simp [rdBitmap, rdI, Int.toNat_natCast, bitmapAt, List.getElem?_eq_getElem h]

theorem rdMatrix_enc (dl : DisplayList) (i : Nat) (r : List Cell)
    (h : i < dl.matrices.length) :
    rdMatrix dl (Cell.i (i : Int) :: r) = some (matrixAt dl i, r) := by
  simp [rdMatrix, rdI, Int.toNat_natCast, matrixAt, List.getElem?_eq_getElem h]

theorem rdShader_enc (dl : DisplayList) (i : Nat) (r : List Cell)
    (h : i < dl.shaders.length) :
    rdShader dl (Cell.i (i : Int) :: r) = some (shaderAt dl i, r) := by
  simp [rdShader, rdI, Int.toNat_natCast, shaderAt, List.getElem?_eq_getElem h]

theorem rdFilter_enc (dl : DisplayList) (i : Nat) (r : List Cell)
    (h : i < dl.filters.length) :
    rdFilter dl (Cell.i (i : Int) :: r) = some (filterAt dl i, r) := by
  simp [rdFilter, rdI, Int.toNat_natCast, filterAt, List.getElem?_eq_getElem h]

theorem maskTest_val (o : EncOp) : maskTest o.val = false := by
  cases o <;> (simp only [EncOp.val]; decide)

theorem maskTest_val_tagged (o : EncOp) :
    maskTest (o.val + OP_MAY_BE_SKIPPED_MASK) = true := by
  cases o <;> (simp only [EncOp.val]; decide)

theorem maskClear_val_tagged (o : EncOp) :
    maskClear (o.val + OP_MAY_BE_SKIPPED_MASK) = o.val := by
  simp [maskClear]

/-- Dispatch lemmas: `decodeOp` at each opcode value selects that opcode's
case body. -/
theorem decodeOp_opSave (dl : DisplayList) (sc : Int) (c : List Cell) :
    decodeOp dl sc opSave c = decSave dl sc c := rfl

theorem decodeOp_opRestore (dl : DisplayList) (sc : Int) (c : List Cell) :
    decodeOp dl sc opRestore c = decRestore dl sc c := rfl

theorem decodeOp_opRestoreToCount (dl : DisplayList) (sc : Int) (c : List Cell) :
    decodeOp dl sc opRestoreToCount c = decRestoreToCount dl sc c := rfl

theorem decodeOp_opSaveLayer (dl : DisplayList) (sc : Int) (c : List Cell) :
    decodeOp dl sc opSaveLayer c = decSaveLayer dl sc c := rfl

theorem decodeOp_opSaveLayerAlpha (dl : DisplayList) (sc : Int) (c : List Cell) :
    decodeOp dl sc opSaveLayerAlpha c = decSaveLayerAlpha dl sc c := rfl

theorem decodeOp_opTranslate (dl : DisplayList) (sc : Int) (c : List Cell) :
    decodeOp dl sc opTranslate c = decTranslate dl sc c := rfl

theorem decodeOp_opRotate (dl : DisplayList) (sc : Int) (c : List Cell) :
    decodeOp dl sc opRotate c = decRotate dl sc c := rfl

theorem decodeOp_opScale (dl : DisplayList) (sc : Int) (c : List Cell) :
    decodeOp dl sc opScale c = decScale dl sc c := rfl

theorem decodeOp_opSkew (dl : DisplayList) (sc : Int) (c : List Cell) :
    decodeOp dl sc opSkew c = decSkew dl sc c := rfl

theorem decodeOp_opSetMatrix (dl : DisplayList) (sc : Int) (c : List Cell) :
    decodeOp dl sc opSetMatrix c = decSetMatrix dl sc c := rfl

theorem decodeOp_opConcatMatrix (dl : DisplayList) (sc : Int) (c : List Cell) :
    decodeOp dl sc opConcatMatrix c = decConcatMatrix dl sc c := rfl

theorem decodeOp_opClipRect (dl : DisplayList) (sc : Int) (c : List Cell) :
    decodeOp dl sc opClipRect c = decClipRect dl sc c := rfl

theorem decodeOp_opDrawDisplayList (dl : DisplayList) (sc : Int) (c : List Cell) :
    decodeOp dl sc opDrawDisplayList c = decDrawDisplayList dl sc c := rfl

theorem decodeOp_opDrawLayer (dl : DisplayList) (sc : Int) (c : List Cell) :
    decodeOp dl sc opDrawLayer c = decDrawLayer dl sc c := rfl

theorem decodeOp_opDrawBitmap (dl : DisplayList) (sc : Int) (c : List Cell) :
    decodeOp dl sc opDrawBitmap c = decDrawBitmap dl sc c := rfl

theorem decodeOp_opDrawBitmapMatrix (dl : DisplayList) (sc : Int) (c : List Cell) :
    decodeOp dl sc opDrawBitmapMatrix c = decDrawBitmapMatrix dl sc c := rfl

theorem decodeOp_opDrawBitmapRect (dl : DisplayList) (sc : Int) (c : List Cell) :
    decodeOp dl sc opDrawBitmapRect c = decDrawBitmapRect dl sc c := rfl

theorem decodeOp_opDrawBitmapMesh (dl : DisplayList) (sc : Int) (c : List Cell) :
    decodeOp dl sc opDrawBitmapMesh c = decDrawBitmapMesh dl sc c := rfl

theorem decodeOp_opDrawPatch (dl : DisplayList) (sc : Int) (c : List Cell) :
    decodeOp dl sc opDrawPatch c = decDrawPatch dl sc c := rfl

theorem decodeOp_opDrawColor (dl : DisplayList) (sc : Int) (c : List Cell) :
    decodeOp dl sc opDrawColor c = decDrawColor dl sc c := rfl

theorem decodeOp_opDrawRect (dl : DisplayList) (sc : Int) (c : List Cell) :
    decodeOp dl sc opDrawRect c = decDrawRect dl sc c := rfl

theorem decodeOp_opDrawRoundRect (dl : DisplayList) (sc : Int) (c : List Cell) :
    decodeOp dl sc opDrawRoundRect c = decDrawRoundRect dl sc c := rfl

theorem decodeOp_opDrawCircle (dl : DisplayList) (sc : Int) (c : List Cell) :
    decodeOp dl sc opDrawCircle c = decDrawCircle dl sc c := rfl

theorem decodeOp_opDrawOval (dl : DisplayList) (sc : Int) (c : List Cell) :
    decodeOp dl sc opDrawOval c = decDrawOval dl sc c := rfl

theorem decodeOp_opDrawArc (dl : DisplayList) (sc : Int) (c : List Cell) :
    decodeOp dl sc opDrawArc c = decDrawArc dl sc c := rfl

theorem decodeOp_opDrawPath (dl : DisplayList) (sc : Int) (c : List Cell) :
    decodeOp dl sc opDrawPath c = decDrawPath dl sc c := rfl

theorem decodeOp_opDrawLines (dl : DisplayList) (sc : Int) (c : List Cell) :
    decodeOp dl sc opDrawLines c = decDrawLines dl sc c := rfl

theorem decodeOp_opDrawPoints (dl : DisplayList) (sc : Int) (c : List Cell) :
    decodeOp dl sc opDrawPoints c = decDrawPoints dl sc c := rfl

theorem decodeOp_opDrawText (dl : DisplayList) (sc : Int) (c : List Cell) :
    decodeOp dl sc opDrawText c = decDrawText dl sc c := rfl

theorem decodeOp_opDrawTextOnPath (dl : DisplayList) (sc : Int) (c : List Cell) :
    decodeOp dl sc opDrawTextOnPath c = decDrawTextOnPath dl sc c := rfl

theorem decodeOp_opDrawPosText (dl : DisplayList) (sc : Int) (c : List Cell) :
    decodeOp dl sc opDrawPosText c = decDrawPosText dl sc c := rfl

theorem decodeOp_opSetupShader (dl : DisplayList) (sc : Int) (c : List Cell) :
    decodeOp dl sc opSetupShader c = decSetupShader dl sc c := rfl

theorem decodeOp_opSetupColorFilter (dl : DisplayList) (sc : Int) (c : List Cell) :
    decodeOp dl sc opSetupColorFilter c = decSetupColorFilter dl sc c := rfl

/-- Dispatching one well-formed encoded operation decodes exactly its operand
words and yields exactly its executor call. -/
theorem decodeOp_enc (dl : DisplayList) (sc : Int) (o : EncOp) (rest : List Cell)
    (h : o.valid dl) :
    decodeOp dl sc o.val (o.args ++ rest) = some (some (o.call dl sc), rest) := by
  cases o with
  | saveE flags => rfl
  | restoreE => rfl
  | restoreToCountE n => rfl
  | saveLayerE f1 f2 f3 f4 pIdx flags =>
    simp only [EncOp.valid] at h
    simp only [EncOp.val, EncOp.args, EncOp.call, decodeOp_opSaveLayer,
      decSaveLayer, Option.bind_eq_bind, Option.some_bind', rdF_cons, rdI_cons,
      List.cons_append, List.nil_append, rdPaint_enc dl pIdx _ h]
  | saveLayerAlphaE f1 f2 f3 f4 alpha flags => rfl
  | translateE dx dy => rfl
  | rotateE d => rfl
  | scaleE sx sy => rfl
  | skewE sx sy => rfl
  | setMatrixE mIdx =>
    simp only [EncOp.valid] at h
    simp only [EncOp.val, EncOp.args, EncOp.call, decodeOp_opSetMatrix,
      decSetMatrix, Option.bind_eq_bind, Option.some_bind',
      List.cons_append, List.nil_append, rdMatrix_enc dl mIdx _ h]
  | concatMatrixE mIdx =>
    simp only [EncOp.valid] at h
    simp only [EncOp.val, EncOp.args, EncOp.call, decodeOp_opConcatMatrix,
      decConcatMatrix, Option.bind_eq_bind, Option.some_bind',
      List.cons_append, List.nil_append, rdMatrix_enc dl mIdx _ h]
  | clipRectE f1 f2 f3 f4 rop => rfl
  | drawDisplayListE handle w hh flags => rfl
  | drawLayerE layer x y pIdx =>
    simp only [EncOp.valid] at h
    simp only [EncOp.val, EncOp.args, EncOp.call, decodeOp_opDrawLayer,
      decDrawLayer, Option.bind_eq_bind, Option.some_bind', rdF_cons, rdI_cons,
      List.cons_append, List.nil_append, rdPaint_enc dl pIdx _ h]
  | drawBitmapE bIdx x y pIdx =>
    obtain ⟨h1, h2⟩ := h
    simp only [EncOp.val, EncOp.args, EncOp.call, decodeOp_opDrawBitmap,
      decDrawBitmap, Option.bind_eq_bind, Option.some_bind', rdF_cons,
      List.cons_append, List.nil_append, rdBitmap_enc dl bIdx _ h1,
      rdPaint_enc dl pIdx _ h2]
  | drawBitmapMatrixE bIdx mIdx pIdx =>
    obtain ⟨h1, h2, h3⟩ := h
    simp only [EncOp.val, EncOp.args, EncOp.call, decodeOp_opDrawBitmapMatrix,
      decDrawBitmapMatrix, Option.bind_eq_bind, Option.some_bind',
      List.cons_append, List.nil_append, rdBitmap_enc dl bIdx _ h1,
      rdMatrix_enc dl mIdx _ h2, rdPaint_enc dl pIdx _ h3]
  | drawBitmapRectE bIdx f1 f2 f3 f4 f5 f6 f7 f8 pIdx =>
    obtain ⟨h1, h2⟩ := h
    simp only [EncOp.val, EncOp.args, EncOp.call, decodeOp_opDrawBitmapRect,
      decDrawBitmapRect, Option.bind_eq_bind, Option.some_bind', rdF_cons,
      List.cons_append, List.nil_append, rdBitmap_enc dl bIdx _ h1,
      rdPaint_enc dl pIdx _ h2]
  | drawBitmapMeshE bIdx mw mh vertices colors pIdx =>
    obtain ⟨h1, h2⟩ := h
    cases colors with
    | none =>
      simp only [EncOp.val, EncOp.args, EncOp.call, decodeOp_opDrawBitmapMesh,
        decDrawBitmapMesh, Option.bind_eq_bind, Option.some_bind', rdF_cons,
        rdI_cons, List.cons_append, List.nil_append, List.append_assoc,
        rdBitmap_enc dl bIdx _ h1, rdFs_enc, rdPaint_enc dl pIdx _ h2,
        ne_eq, reduceIte]
      simp
    | some cs =>
      simp only [EncOp.val, EncOp.args, EncOp.call, decodeOp_opDrawBitmapMesh,
        decDrawBitmapMesh, Option.bind_eq_bind, Option.some_bind', rdF_cons,
        rdI_cons, List.cons_append, List.nil_append, List.append_assoc,
        rdBitmap_enc dl bIdx _ h1, rdFs_enc, rdIs_enc,
        rdPaint_enc dl pIdx _ h2, ne_eq, reduceIte]
      simp [rdIs_enc, rdPaint_enc dl pIdx _ h2]
  | drawPatchE bIdx xDivs yDivs colors l t r b pIdx =>
    obtain ⟨h1, h2⟩ := h
    simp only [EncOp.val, EncOp.args, EncOp.call, decodeOp_opDrawPatch,
      decDrawPatch, Option.bind_eq_bind, Option.some_bind', rdF_cons, rdI_cons,
      List.cons_append, List.nil_append, List.append_assoc,
      rdBitmap_enc dl bIdx _ h1, rdIs_enc, rdPaint_enc dl pIdx _ h2]
  | drawColorE color mode => rfl
  | drawRectE f1 f2 f3 f4 pIdx =>
    simp only [EncOp.valid] at h
    simp only [EncOp.val, EncOp.args, EncOp.call, decodeOp_opDrawRect,
      decDrawRect, Option.bind_eq_bind, Option.some_bind', rdF_cons,
      List.cons_append, List.nil_append, rdPaint_enc dl pIdx _ h]
  | drawRoundRectE f1 f2 f3 f4 f5 f6 pIdx =>
    simp only [EncOp.valid] at h
    simp only [EncOp.val, EncOp.args, EncOp.call, decodeOp_opDrawRoundRect,
      decDrawRoundRect, Option.bind_eq_bind, Option.some_bind', rdF_cons,
      List.cons_append, List.nil_append, rdPaint_enc dl pIdx _ h]
  | drawCircleE f1 f2 f3 pIdx =>
    simp only [EncOp.valid] at h
    simp only [EncOp.val, EncOp.args, EncOp.call, decodeOp_opDrawCircle,
      decDrawCircle, Option.bind_eq_bind, Option.some_bind', rdF_cons,
      List.cons_append, List.nil_append, rdPaint_enc dl pIdx _ h]
  | drawOvalE f1 f2 f3 f4 pIdx =>
    simp only [EncOp.valid] at h
    simp only [EncOp.val, EncOp.args, EncOp.call, decodeOp_opDrawOval,
      decDrawOval, Option.bind_eq_bind, Option.some_bind', rdF_cons,
      List.cons_append, List.nil_append, rdPaint_enc dl pIdx _ h]
  | drawArcE f1 f2 f3 f4 f5 f6 i1 pIdx =>
    simp only [EncOp.valid] at h
    simp only [EncOp.val, EncOp.args, EncOp.call, decodeOp_opDrawArc,
      decDrawArc, Option.bind_eq_bind, Option.some_bind', rdF_cons, rdI_cons,
      List.cons_append, List.nil_append, rdPaint_enc dl pIdx _ h]
  | drawPathE phIdx pIdx =>
    obtain ⟨h1, h2⟩ := h
    simp only [EncOp.val, EncOp.args, EncOp.call, decodeOp_opDrawPath,
      decDrawPath, Option.bind_eq_bind, Option.some_bind',
      List.cons_append, List.nil_append, rdPath_enc dl phIdx _ h1,
      rdPaint_enc dl pIdx _ h2]
  | drawLinesE points pIdx =>
    simp only [EncOp.valid] at h
    simp only [EncOp.val, EncOp.args, EncOp.call, decodeOp_opDrawLines,
      decDrawLines, Option.bind_eq_bind, Option.some_bind',
      List.cons_append, List.nil_append, List.append_assoc, rdFs_enc,
      rdPaint_enc dl pIdx _ h]
  | drawPointsE points pIdx =>
    simp only [EncOp.valid] at h
    simp only [EncOp.val, EncOp.args, EncOp.call, decodeOp_opDrawPoints,
      decDrawPoints, Option.bind_eq_bind, Option.some_bind',
      List.cons_append, List.nil_append, List.append_assoc, rdFs_enc,
      rdPaint_enc dl pIdx _ h]
  | drawTextE bs count x y pIdx length =>
    simp only [EncOp.valid] at h
    simp only [EncOp.val, EncOp.args, EncOp.call, decodeOp_opDrawText,
      decDrawText, Option.bind_eq_bind, Option.some_bind', rdF_cons, rdI_cons,
      List.cons_append, List.nil_append, List.append_assoc, rdText_enc,
      rdPaint_enc dl pIdx _ h]
  | drawTextOnPathE bs count phIdx hOffset vOffset pIdx =>
    obtain ⟨h1, h2⟩ := h
    simp only [EncOp.val, EncOp.args, EncOp.call, decodeOp_opDrawTextOnPath,
      decDrawTextOnPath, Option.bind_eq_bind, Option.some_bind', rdF_cons,
      rdI_cons, List.cons_append, List.nil_append, List.append_assoc,
      rdText_enc, rdPath_enc dl phIdx _ h1, rdPaint_enc dl pIdx _ h2]
  | drawPosTextE bs count positions pIdx =>
    simp only [EncOp.valid] at h
    simp only [EncOp.val, EncOp.args, EncOp.call, decodeOp_opDrawPosText,
      decDrawPosText, Option.bind_eq_bind, Option.some_bind', rdI_cons,
      List.cons_append, List.nil_append, List.append_assoc, rdText_enc,
      rdFs_enc, rdPaint_enc dl pIdx _ h]
  | resetShaderE => rfl
  | setupShaderE sIdx =>
    simp only [EncOp.valid] at h
    simp only [EncOp.val, EncOp.args, EncOp.call, decodeOp_opSetupShader,
      decSetupShader, Option.bind_eq_bind, Option.some_bind',
      List.cons_append, List.nil_append, rdShader_enc dl sIdx _ h]
  | setupColorFilterE fIdx =>
    simp only [EncOp.valid] at h
    simp only [EncOp.val, EncOp.args, EncOp.call, decodeOp_opSetupColorFilter,
      decSetupColorFilter, Option.bind_eq_bind, Option.some_bind',
      List.cons_append, List.nil_append, rdFilter_enc dl fIdx _ h]
  | resetColorFilterE => rfl
  | resetShadowE => rfl
  | setupShadowE radius dx dy color => rfl
  | resetPaintFilterE => rfl
  | setupPaintFilterE clearBits setBits => rfl
  | callDrawGLFunctionE functor => rfl

theorem replayL_step_untagged (dl : DisplayList) (sc : Int) (f : Nat) (o : EncOp)
    (rest : List Cell) (h : o.valid dl) (cs : List Call) (es : List Int) (m : Nat)
    (hr : replayL dl sc false f rest = some (cs, es, m)) :
    replayL dl sc false (f + 1) (Cell.i o.val :: (o.args ++ rest)) =
      some (o.call dl sc :: cs, es, (1 + o.args.length) + m) := by
  simp only [replayL, maskTest_val o, Bool.false_eq_true, if_false,
    decodeOp_enc dl sc o rest h, hr, List.length_append, Nat.add_sub_cancel]

theorem replayL_step_tagged (dl : DisplayList) (sc : Int) (f : Nat) (o : EncOp)
    (rest : List Cell) (h : o.valid dl) (cs : List Call) (es : List Int) (m : Nat)
    (hr : replayL dl sc false f rest = some (cs, es, m)) :
    replayL dl sc false (f + 1)
      (Cell.i (o.val + OP_MAY_BE_SKIPPED_MASK) ::
       Cell.i (4 * (o.args.length : Int)) :: (o.args ++ rest)) =
      some (o.call dl sc :: cs, es, (2 + o.args.length) + m) := by
  have hnn : ¬ (4 * (o.args.length : Int) < 0) := by simp [Int.not_lt]
  simp only [replayL, maskTest_val_tagged o, if_true, hnn, if_false,
    Bool.false_eq_true, maskClear_val_tagged o, decodeOp_enc dl sc o rest h, hr,
    List.length_append, Nat.add_sub_cancel]

theorem encT_length (p : Bool × EncOp) :
    (encT p).length = (if p.1 then 2 else 1) + p.2.args.length := by
  obtain ⟨tag, o⟩ := p
  cases tag <;> simp [encT] <;> omega

/-- With culling disabled, replaying an encoded operation stream — whether or
not individual operations carry the skippable tag — dispatches exactly one
executor call per operation, in stream order, with the operations' decoded
operand values, logs no decode errors, and consumes the whole stream. -/
theorem replayL_encTList (dl : DisplayList) (sc : Int) (l : List (Bool × EncOp))
    (hv : ∀ p ∈ l, p.2.valid dl) :
    ∀ f, (encTList l).length ≤ f →
    replayL dl sc false f (encTList l) =
      some (l.map (fun p => p.2.call dl sc), [], (encTList l).length) := by
  induction l with
  | nil =>
    intro f _
    cases f <;> rfl
  | cons hd tl ih =>
    intro f hf
    obtain ⟨tag, o⟩ := hd
    have hvtl : ∀ p ∈ tl, p.2.valid dl := fun p hp => hv p (List.mem_cons_of_mem _ hp)
    have hvo : EncOp.valid dl o := hv (tag, o) (List.mem_cons_self _ _)
    have hlen : encTList ((tag, o) :: tl) = encT (tag, o) ++ encTList tl := by
      simp [encTList]
    have hL : (encTList ((tag, o) :: tl)).length =
        (encT (tag, o)).length + (encTList tl).length := by
      simp [hlen]
    have h1 : 1 ≤ (encT (tag, o)).length := by
      cases tag <;> simp [encT_length] <;> omega
    cases f with
    | zero =>
      exfalso
      have : 1 ≤ (encTList ((tag, o) :: tl)).length := le_trans h1 (by omega)
      omega
    | succ f2 =>
      have hf2 : (encTList tl).length ≤ f2 := by omega
      have hrec := ih hvtl f2 hf2
      cases tag with
      | false =>
        have hshape : encTList ((false, o) :: tl) =
            Cell.i o.val :: (o.args ++ encTList tl) := by
          simp [encTList, encT]
        rw [hshape, replayL_step_untagged dl sc f2 o (encTList tl) hvo _ _ _ hrec]
        simp [hL, encT_length, List.map_cons]
        omega
      | true =>
        have hshape : encTList ((true, o) :: tl) =
            Cell.i (o.val + OP_MAY_BE_SKIPPED_MASK) ::
            Cell.i (4 * (o.args.length : Int)) :: (o.args ++ encTList tl) := by
          simp [encTList, encT]
        rw [hshape, replayL_step_tagged dl sc f2 o (encTList tl) hvo _ _ _ hrec]
        simp [hL, encT_length, List.map_cons]
        omega

/-! ## Recorder state lemmas -/

namespace DisplayListRenderer

theorem insertRestoreToCount_of_neg (s : RecState) (h : s.mRestoreSaveCount < 0) :
    insertRestoreToCount s = s := by
  unfold insertRestoreToCount
  rw [if_neg (by omega)]

theorem insertTranlate_of_false (s : RecState) (h : s.mHasTranslate = false) :
    insertTranlate s = s := by
  unfold insertTranlate
  rw [if_neg (by simp [h])]

theorem insertRestoreToCount_rsc (s : RecState) :
    (insertRestoreToCount s).mRestoreSaveCount < 0 ∨
    (insertRestoreToCount s).mRestoreSaveCount = s.mRestoreSaveCount := by
  unfold insertRestoreToCount
  split_ifs with h
  · left; simp
  · right; rfl

theorem insertRestoreToCount_rsc_neg (s : RecState) :
    (insertRestoreToCount s).mRestoreSaveCount < 0 := by
  unfold insertRestoreToCount
  split_ifs with h
  · simp
  · omega

theorem insertRestoreToCount_hasT (s : RecState) :
    (insertRestoreToCount s).mHasTranslate = s.mHasTranslate := by
  unfold insertRestoreToCount; split_ifs <;> rfl

theorem insertTranlate_hasT (s : RecState) :
    (insertTranlate s).mHasTranslate = false := by
  unfold insertTranlate; split_ifs with h <;> simp_all

theorem insertTranlate_rsc (s : RecState) :
    (insertTranlate s).mRestoreSaveCount = s.mRestoreSaveCount := by
  unfold insertTranlate; split_ifs <;> rfl

theorem flush_hasT (s : RecState) :
    (insertTranlate (insertRestoreToCount s)).mHasTranslate = false :=
  insertTranlate_hasT _

theorem flush_rsc (s : RecState) :
    (insertTranlate (insertRestoreToCount s)).mRestoreSaveCount < 0 := by
  rw [insertTranlate_rsc]; exact insertRestoreToCount_rsc_neg s

theorem flushCells_ext (s t : RecState) (hc : s.cells = t.cells)
    (hx : s.mTranslateX = t.mTranslateX) (hy : s.mTranslateY = t.mTranslateY)
    (hh : s.mHasTranslate = t.mHasTranslate)
    (hr : s.mRestoreSaveCount = t.mRestoreSaveCount) :
    flushCells s = flushCells t := by
  have e1 : (insertRestoreToCount s).cells = (insertRestoreToCount t).cells := by
    unfold insertRestoreToCount
    rw [hr]
    split_ifs <;> simp [hc]
  have e2 : (insertRestoreToCount s).mHasTranslate = (insertRestoreToCount t).mHasTranslate := by
    rw [insertRestoreToCount_hasT, insertRestoreToCount_hasT, hh]
  have e3 : (insertRestoreToCount s).mTranslateX = (insertRestoreToCount t).mTranslateX := by
    unfold insertRestoreToCount
    rw [hr]
    split_ifs <;> simp [hx]
  have e4 : (insertRestoreToCount s).mTranslateY = (insertRestoreToCount t).mTranslateY := by
    unfold insertRestoreToCount
    rw [hr]
    split_ifs <;> simp [hy]
  unfold flushCells insertTranlate
  rw [e2]
  split_ifs <;> simp [e1, e3, e4]

theorem addBitmapT_snd (b : BitmapH) (s : RecState) :
    ((addBitmapT b s).2).cells = s.cells ∧
    ((addBitmapT b s).2).mTranslateX = s.mTranslateX ∧
    ((addBitmapT b s).2).mTranslateY = s.mTranslateY ∧
    ((addBitmapT b s).2).mHasTranslate = s.mHasTranslate ∧
    ((addBitmapT b s).2).mRestoreSaveCount = s.mRestoreSaveCount := by
  unfold addBitmapT
  cases h : s.bitmaps.findIdx? (fun q => q = b) <;> simp [h]

theorem addPaintT_snd (p : Paint) (s : RecState) :
    ((addPaintT p s).2).cells = s.cells ∧
    ((addPaintT p s).2).mTranslateX = s.mTranslateX ∧
    ((addPaintT p s).2).mTranslateY = s.mTranslateY ∧
    ((addPaintT p s).2).mHasTranslate = s.mHasTranslate ∧
    ((addPaintT p s).2).mRestoreSaveCount = s.mRestoreSaveCount := by
  unfold addPaintT
  cases h : s.paints.findIdx? (fun q => q = p) <;> simp [h]

theorem addPathT_snd (p : PathH) (s : RecState) :
    ((addPathT p s).2).cells = s.cells ∧
    ((addPathT p s).2).mTranslateX = s.mTranslateX ∧
    ((addPathT p s).2).mTranslateY = s.mTranslateY ∧
    ((addPathT p s).2).mHasTranslate = s.mHasTranslate ∧
    ((addPathT p s).2).mRestoreSaveCount = s.mRestoreSaveCount := by
  unfold addPathT
  cases h : s.paths.findIdx? (fun q => q = p) <;> simp [h]

end DisplayListRenderer

theorem foldl_incrementRefcount (l : List Int) (c : Cache) (x : Int) :
    (l.foldl (fun c h => incrementRefcount h c) c) x = c x + l.count x := by
  induction l generalizing c with
  | nil => simp
  | cons a t ih =>
    simp only [List.foldl_cons]
    rw [ih]
    simp only [incrementRefcount, List.count_cons, beq_iff_eq]
    by_cases h : x = a
    · simp [h]
      omega
    · have h2 : ¬ a = x := fun he => h he.symm
      simp [h, h2]

theorem foldl_decrementRefcount (l : List Int) (c : Cache) (x : Int) :
    (l.foldl (fun c h => decrementRefcount h c) c) x = c x - l.count x := by
  induction l generalizing c with
  | nil => simp
  | cons a t ih =>
    simp only [List.foldl_cons]
    rw [ih]
    simp only [decrementRefcount, List.count_cons, beq_iff_eq]
    by_cases h : x = a
    · simp [h]
      omega
    · have h2 : ¬ a = x := fun he => h he.symm
      simp [h, h2]

end HwuiDL

-- ## Translate coalescing lemmas

namespace HwuiDL
set_option linter.unusedVariables false
open DisplayListRenderer

theorem applyTranslates_cons (p : ℚ × ℚ) (ps : List (ℚ × ℚ)) (s : RecState) :
    applyTranslates (p :: ps) s = applyTranslates ps (translate p.1 p.2 s) := by
  simp [applyTranslates]

theorem translate_pending (dx dy : ℚ) (s : RecState) (h2 : s.mRestoreSaveCount < 0) :
    translate dx dy s =
      { s with mHasTranslate := true,
               mTranslateX := s.mTranslateX + dx, mTranslateY := s.mTranslateY + dy,
               cur := ⟨s.cur.xf.translateBy dx dy, s.cur.clip⟩ } := by
  have h3 := insertRestoreToCount_of_neg
    { s with mHasTranslate := true, mTranslateX := s.mTranslateX + dx,
             mTranslateY := s.mTranslateY + dy } h2
  simp only [DisplayListRenderer.translate, baseTranslate]
  rw [h3]

theorem insertRestoreToCount_set_pending (s : RecState) (a : Bool) (b c : ℚ) :
    insertRestoreToCount
        { s with mHasTranslate := a, mTranslateX := b, mTranslateY := c } =
      { insertRestoreToCount s with
        mHasTranslate := a, mTranslateX := b, mTranslateY := c } := by
  unfold insertRestoreToCount
  split_ifs <;> rfl

theorem insertRestoreToCount_cur (s : RecState) :
    (insertRestoreToCount s).cur = s.cur := by
  unfold insertRestoreToCount
  split_ifs <;> rfl

theorem applyTranslates_go (ps : List (ℚ × ℚ)) :
    ∀ s : RecState, s.mHasTranslate = true → s.mRestoreSaveCount < 0 →
    applyTranslates ps s =
      { s with mTranslateX := s.mTranslateX + (ps.map Prod.fst).sum,
               mTranslateY := s.mTranslateY + (ps.map Prod.snd).sum,
               cur := ⟨ps.foldl (fun m q => m.translateBy q.1 q.2) s.cur.xf,
                       s.cur.clip⟩ } := by
  induction ps with
  | nil =>
    intro s h1 h2
    simp [applyTranslates]
  | cons p ps ih =>
    intro s h1 h2
    rw [applyTranslates_cons, translate_pending p.1 p.2 s h2]
    have hrec := ih { s with mHasTranslate := true, mTranslateX := s.mTranslateX + p.1, mTranslateY := s.mTranslateY + p.2, cur := ⟨s.cur.xf.translateBy p.1 p.2, s.cur.clip⟩ } rfl h2
    rw [hrec]
    simp [RecState.mk.injEq, List.map_cons, List.sum_cons, List.foldl_cons, h1]
    constructor <;> ring

theorem applyTranslates_run (p : ℚ × ℚ) (ps : List (ℚ × ℚ)) (s : RecState)
    (h1 : s.mHasTranslate = false) (hx : s.mTranslateX = 0) (hy : s.mTranslateY = 0) :
    applyTranslates (p :: ps) s =
      { insertRestoreToCount s with
        mHasTranslate := true,
        mTranslateX := ((p :: ps).map Prod.fst).sum,
        mTranslateY := ((p :: ps).map Prod.snd).sum,
        cur := ⟨(p :: ps).foldl (fun m q => m.translateBy q.1 q.2) s.cur.xf,
                s.cur.clip⟩ } := by
  rw [applyTranslates_cons]
  simp only [DisplayListRenderer.translate, baseTranslate]
  rw [insertRestoreToCount_set_pending]
  have hrec := applyTranslates_go ps { insertRestoreToCount s with mHasTranslate := true, mTranslateX := s.mTranslateX + p.1, mTranslateY := s.mTranslateY + p.2, cur := ⟨(insertRestoreToCount s).cur.xf.translateBy p.1 p.2, (insertRestoreToCount s).cur.clip⟩ } rfl (insertRestoreToCount_rsc_neg s)
  simp only [insertRestoreToCount_cur] at hrec ⊢
  rw [hrec]
  simp [RecState.mk.injEq, List.map_cons, List.sum_cons, List.foldl_cons, hx, hy]

end HwuiDL

/-! ## Claim theorems -/

namespace HwuiDL
open DisplayListRenderer

/-- An opcode value outside `0 .. 39` reaches `replay`'s `default:` case
(DisplayListRenderer.cpp:985-988), which logs the unknown value and leaves
the cursor where it was. -/
theorem decodeOp_out_of_range (dl : DisplayList) (sc : Int) (op : Int)
    (c : List Cell) (h : op < 0 ∨ 39 < op) :
    decodeOp dl sc op c = some (none, c) := by
  have hne : ∀ k : Int, 0 ≤ k → k ≤ 39 → ¬ op = k := by
    intro k hk1 hk2 he
    rcases h with h | h <;> omega
  unfold decodeOp
  rw [if_neg (hne 39 (by decide) (by decide)),
      if_neg (hne 0 (by decide) (by decide)),
      if_neg (hne 1 (by decide) (by decide)),
      if_neg (hne 2 (by decide) (by decide)),
      if_neg (hne 3 (by decide) (by decide)),
      if_neg (hne 4 (by decide) (by decide)),
      if_neg (hne 5 (by decide) (by decide)),
      if_neg (hne 6 (by decide) (by decide)),
      if_neg (hne 7 (by decide) (by decide)),
      if_neg (hne 8 (by decide) (by decide)),
      if_neg (hne 9 (by decide) (by decide)),
      if_neg (hne 10 (by decide) (by decide)),
      if_neg (hne 11 (by decide) (by decide)),
      if_neg (hne 12 (by decide) (by decide)),
      if_neg (hne 13 (by decide) (by decide)),
      if_neg (hne 14 (by decide) (by decide)),
      if_neg (hne 15 (by decide) (by decide)),
      if_neg (hne 16 (by decide) (by decide)),
      if_neg (hne 17 (by decide) (by decide)),
      if_neg (hne 18 (by decide) (by decide)),
      if_neg (hne 19 (by decide) (by decide)),
      if_neg (hne 20 (by decide) (by decide)),
      if_neg (hne 21 (by decide) (by decide)),
      if_neg (hne 22 (by decide) (by decide)),
      if_neg (hne 23 (by decide) (by decide)),
      if_neg (hne 24 (by decide) (by decide)),
      if_neg (hne 25 (by decide) (by decide)),
      if_neg (hne 26 (by decide) (by decide)),
      if_neg (hne 27 (by decide) (by decide)),
      if_neg (hne 28 (by decide) (by decide)),
      if_neg (hne 29 (by decide) (by decide)),
      if_neg (hne 30 (by decide) (by decide)),
      if_neg (hne 31 (by decide) (by decide)),
      if_neg (hne 32 (by decide) (by decide)),
      if_neg (hne 33 (by decide) (by decide)),
      if_neg (hne 34 (by decide) (by decide)),
      if_neg (hne 35 (by decide) (by decide)),
      if_neg (hne 36 (by decide) (by decide)),
      if_neg (hne 37 (by decide) (by decide)),
      if_neg (hne 38 (by decide) (by decide))]

/-- The cells written by a quick-rejected skippable operation: the flushed
pending state, the tagged opcode, the skip slot holding the operand byte
count, then the operands. -/
theorem addOpSkippable_true_cells (opc : Int) (operands : List Cell)
    (s : RecState) :
    (addOpSkippable opc true operands s).cells =
      flushCells s ++
        [Cell.i (opc + OP_MAY_BE_SKIPPED_MASK),
         Cell.i (4 * (operands.length : Int))] ++ operands := by
  simp [addOpSkippable, flushCells, List.append_assoc]

/-- Claim C1: with culling disabled, replay invokes the executor exactly in
the recorded order with the recorded operand values — but the concrete
scenario's final call is `restoreToCount(1)`, not `restore`: the recorder
legalizes `restore()` into a deferred restore-to-count opcode
(DisplayListRenderer.cpp:1095-1110). -/
theorem claim_C1 :
    (∀ (dl : DisplayList) (sc : Int) (l : List (Bool × EncOp)),
        dl.cells = encTList l → (∀ q ∈ l, q.2.valid dl) →
        replayDL dl false sc =
          some (l.map (fun q => q.2.call dl (sc - 1)), [], dl.cells.length)) ∧
    replayDL scenario1DL false 1 =
      some ([Call.save 31, Call.translate 10 20,
             Call.drawRect 0 0 5 5 paintA, Call.restoreToCount 1], [], 13) := by
  constructor
  · intro dl sc l hcells hv
    unfold replayDL
    rw [hcells]
    exact replayL_encTList dl (sc - 1) l hv (encTList l).length le_rfl
  · decide

/-- Claim C1, counterexample: replaying scenario 1 succeeds, but no executor
call of the pass is `restore` — the spec's claimed call sequence
`save, translate, drawRect, restore` is not the one made. -/
theorem claim_C1_cex :
    ∃ cs es m, replayDL scenario1DL false 1 = some (cs, es, m) ∧
      Call.restore ∉ cs :=
  ⟨[Call.save 31, Call.translate 10 20, Call.drawRect 0 0 5 5 paintA,
    Call.restoreToCount 1], [], 13, by decide, by decide⟩

/-- Claim C1, witness: scenario 1's stream is the encoding of its operation
list, every operation is valid for the finalized list, and the general
statement instantiates to the scenario. -/
theorem claim_C1_witness :
    replayDL scenario1DL false 1 =
      some (scenario1Ops.map (fun q => q.2.call scenario1DL (1 - 1)), [],
            scenario1DL.cells.length) :=
  claim_C1.1 scenario1DL 1 scenario1Ops (by decide)
    (by
      intro q hq
      simp only [scenario1Ops, List.mem_cons, List.not_mem_nil, or_false] at hq
      rcases hq with rfl | rfl | rfl | rfl <;> simp only [EncOp.valid] <;>
        first | trivial | decide)

/-- Claim C3: an out-of-range opcode is not fatal — `replay`'s `default:`
case only logs the unknown value and the loop continues with the next word;
in the concrete buffer the unknown opcode 99 is recorded as a decode error
and the following `Save` operation is still dispatched. -/
theorem claim_C3 :
    (∀ (dl : DisplayList) (sc : Int) (f : Nat) (op : Int) (rest : List Cell)
       (cs : List Call) (es : List Int) (m : Nat),
       (op < 0 ∨ 39 < op) → maskTest op = false →
       replayL dl sc true f rest = some (cs, es, m) →
       replayL dl sc true (f + 1) (Cell.i op :: rest) =
         some (cs, op :: es, 1 + m)) ∧
    replayDL unknownOpDL true 1 = some ([Call.save 31], [99], 3) := by
  constructor
  · intro dl sc f op rest cs es m h hm hr
    simp only [replayL, hm, Bool.false_eq_true, if_false,
      decodeOp_out_of_range dl sc op rest h, hr, Nat.sub_self, Nat.add_zero]
  · decide

/-- Claim C3, counterexample: the pass over the buffer whose first opcode is
the unknown value 99 is not aborted — it still dispatches an executor
call for the `Save` operation that follows. -/
theorem claim_C3_cex :
    ∃ cs es m, replayDL unknownOpDL true 1 = some (cs, es, m) ∧ cs ≠ [] :=
  ⟨[Call.save 31], [99], 3, by decide, by decide⟩

/-- Claim C3, witness: the general continuation step instantiated at opcode
99 over the empty tail. -/
theorem claim_C3_witness :
    replayL unknownOpDL 0 true 1 [Cell.i 99] = some ([], [99], 1 + 0) :=
  claim_C3.1 unknownOpDL 0 0 99 [] [] [] 0 (Or.inr (by decide)) (by decide) rfl

/-- Claim C4: on a buffer holding one `DrawPosText` operation the describe
pass logs the operation's name twice — its case body lacks a `break` and
falls into the `ResetShader` case body — while replay dispatches exactly one
`drawPosText` call; the two passes are not in sync over the opcode set. -/
theorem claim_C4 :
    outputDL posTextDL 1 =
      some ([DLog.line opDrawPosText, DLog.line opDrawPosText], 8) ∧
    replayDL posTextDL false 1 =
      some ([Call.drawPosText [97, 98, 99] 3 1 [4, 7] paintA], [], 8) := by
  constructor
  · decide
  · decide

/-- Claim C5: recording `drawPath` on a path whose ink bound is
`[500, 510] × [500, 510]` under clip `[500, 600] × [500, 600]` marks the
operation skippable (the opcode is written with the skip bit and a skip
slot), yet the path's exact device-space bound intersects the recording-time
clip: a visible operation is culled, because the source passes the bound's
width and height as `quickReject`'s right/bottom coordinates. -/
theorem claim_C5 :
    (drawPath path0 paintA clip500Rec).cells =
      clip500Rec.cells ++
        [Cell.i (opDrawPath + OP_MAY_BE_SKIPPED_MASK), Cell.i 8,
         Cell.i 0, Cell.i 0] ∧
    (clip500Rec.cur.xf.mapRect
        ⟨path0.inkL, path0.inkT, path0.inkR, path0.inkB⟩).intersects
      clip500Rec.cur.clip = true := by
  constructor
  · decide
  · decide

/-- Claim C9: re-initializing a list that holds one reference to bitmap 7
from a recorder whose stream is empty returns before `clearResources`: the
list keeps the stale bitmap table entry, the shared refcount stays at 1
(never released), and only the size is reset. -/
theorem claim_C9 :
    (initRec 100 100).cells.length = 0 ∧
    (initRec 100 100).bitmaps = [] ∧
    (heldDL.initFromDisplayListRenderer (initRec 100 100) true heldCache).1.bitmaps =
      [⟨7, 10, 10⟩] ∧
    (heldDL.initFromDisplayListRenderer (initRec 100 100) true heldCache).2 7 = 1 ∧
    (heldDL.initFromDisplayListRenderer (initRec 100 100) true heldCache).1.size = 0 := by
  refine ⟨by decide, by decide, by decide, by decide, by decide⟩

/-- Claim C10: `drawText`, `drawTextOnPath` and `drawPosText` with a null
text pointer or a non-positive glyph count return before touching any
recorder state: the stream, the tables and every other field are unchanged. -/
theorem claim_C10 :
    ∀ (text : Option (List Nat)) (bytesCount count : Int) (p : Paint)
      (s : RecState),
      text = none ∨ count ≤ 0 →
      (∀ (x y length : ℚ),
         DisplayListRenderer.drawText text bytesCount count x y p length s = s) ∧
      (∀ (path : PathH) (hOffset vOffset : ℚ),
         DisplayListRenderer.drawTextOnPath text bytesCount count path hOffset
           vOffset p s = s) ∧
      (∀ (positions : List ℚ),
         DisplayListRenderer.drawPosText text bytesCount count positions p s = s) := by
  intro text bytesCount count p s h
  cases text with
  | none => exact ⟨fun _ _ _ => rfl, fun _ _ _ => rfl, fun _ => rfl⟩
  | some bs =>
    have hc : count ≤ 0 := by
      rcases h with h | h
      · exact absurd h (by simp)
      · exact h
    refine ⟨fun x y length => ?_, fun path hO vO => ?_, fun positions => ?_⟩ <;>
      simp [DisplayListRenderer.drawText, DisplayListRenderer.drawTextOnPath,
            DisplayListRenderer.drawPosText, hc]

/-- Claim C10, witness: the three guards at concrete inputs — a null text
pointer, and a zero count with non-null text. -/
theorem claim_C10_witness :
    DisplayListRenderer.drawText none 3 3 0 0 paintA 1 (initRec 100 100) =
      initRec 100 100 ∧
    DisplayListRenderer.drawTextOnPath (some [97]) 1 0 path0 0 0 paintA
      (initRec 100 100) = initRec 100 100 ∧
    DisplayListRenderer.drawPosText none 3 3 [] paintA (initRec 100 100) =
      initRec 100 100 :=
  ⟨(claim_C10 none 3 3 paintA (initRec 100 100) (Or.inl rfl)).1 0 0 1,
   (claim_C10 (some [97]) 1 0 paintA (initRec 100 100)
      (Or.inr (by decide))).2.1 path0 0 0,
   (claim_C10 none 3 3 paintA (initRec 100 100) (Or.inl rfl)).2.2 []⟩


/-- Claim C2: with culling enabled, a skippable-tagged operation invokes no
executor call, but the cursor advances by the skip-length value counted in
words — the recorder stores the operand byte count there, so the advance is
four times the operand region and overshoots it; on the concrete culled
buffer the final offset is 22 on a 7-word stream. -/
theorem claim_C2 :
    (∀ (dl : DisplayList) (sc : Int) (f : Nat) (o : EncOp) (rest : List Cell)
       (cs : List Call) (es : List Int) (m : Nat),
       replayL dl sc true f ((o.args ++ rest).drop (4 * o.args.length)) =
         some (cs, es, m) →
       replayL dl sc true (f + 1)
           (Cell.i (o.val + OP_MAY_BE_SKIPPED_MASK) ::
            Cell.i (4 * (o.args.length : Int)) :: (o.args ++ rest)) =
         some (cs, es, 2 + 4 * o.args.length + m)) ∧
    replayDL culledDL true 1 = some ([], [], 22) := by
  constructor
  · intro dl sc f o rest cs es m hr
    have hnn : ¬ ((4 : Int) * (o.args.length : Int) < 0) := by omega
    have ht : ((4 : Int) * (o.args.length : Int)).toNat = 4 * o.args.length := by
      omega
    simp only [replayL, maskTest_val_tagged o, if_true, hnn, if_false,
      eq_self_iff_true, ht, hr]
  · decide

/-- Claim C2, counterexample: replaying the culled scenario consumes 22
words, not the 7 words the buffer holds — the cursor does not stop at the
offset immediately after the culled operation's encoded region. -/
theorem claim_C2_cex :
    ∃ cs es m, replayDL culledDL true 1 = some (cs, es, m) ∧
      m ≠ culledDL.cells.length :=
  ⟨[], [], 22, by decide, by decide⟩

/-- Claim C2, witness: the skip step instantiated at a tagged two-operand
operation over an empty tail. -/
theorem claim_C2_witness :
    replayL emptyDisplayList 0 true 1
        (Cell.i ((EncOp.drawColorE 255 1).val + OP_MAY_BE_SKIPPED_MASK) ::
         Cell.i (4 * ((EncOp.drawColorE 255 1).args.length : Int)) ::
         ((EncOp.drawColorE 255 1).args ++ [])) =
      some ([], [], 2 + 4 * (EncOp.drawColorE 255 1).args.length + 0) :=
  claim_C2.1 emptyDisplayList 0 0 (EncOp.drawColorE 255 1) [] [] [] 0 (by decide)

/-- Claim C6: every operation the recorder writes with the skippable tag —
`drawBitmap`, fill-style `drawRect`, `drawDisplayList`, fill-style
`drawRoundRect`, `drawPath` and left-aligned `drawText` (the variable-length
operand case) — carries a skip slot holding exactly four bytes per operand
word: 16 for drawBitmap's and drawDisplayList's four operands, 20 for
drawRect's five, 28 for drawRoundRect's seven, 8 for drawPath's two, and
four times the full operand word count (text payload included) for drawText;
on the concrete stream the opcode following the culled bitmap operation sits
exactly `16 / 4` words past the operand region's start. -/
theorem claim_C6 :
    (∀ (b : BitmapH) (left top : ℚ) (p : Paint) (s : RecState),
       quickReject s left top (left + b.bw) (top + b.bh) = true →
       ∃ bi pi : Nat,
         (drawBitmap b left top p s).cells =
           flushCells s ++
             [Cell.i (opDrawBitmap + OP_MAY_BE_SKIPPED_MASK), Cell.i 16] ++
             [Cell.i (bi : Int), Cell.f left, Cell.f top, Cell.i (pi : Int)]) ∧
    (∀ (l t r b : ℚ) (p : Paint) (s : RecState),
       p.style = 0 → quickReject s l t r b = true →
       ∃ pi : Nat,
         (drawRect l t r b p s).cells =
           flushCells s ++
             [Cell.i (opDrawRect + OP_MAY_BE_SKIPPED_MASK), Cell.i 20] ++
             [Cell.f l, Cell.f t, Cell.f r, Cell.f b, Cell.i (pi : Int)]) ∧
    (∀ (handle w h flags : Int) (s : RecState),
       quickReject s 0 0 (w : ℚ) (h : ℚ) = true →
       (drawDisplayList handle w h flags s).cells =
         flushCells s ++
           [Cell.i (opDrawDisplayList + OP_MAY_BE_SKIPPED_MASK), Cell.i 16] ++
           [Cell.i handle, Cell.i w, Cell.i h, Cell.i flags]) ∧
    (∀ (l t r b rx ry : ℚ) (p : Paint) (s : RecState),
       p.style = 0 → quickReject s l t r b = true →
       ∃ pi : Nat,
         (drawRoundRect l t r b rx ry p s).cells =
           flushCells s ++
             [Cell.i (opDrawRoundRect + OP_MAY_BE_SKIPPED_MASK), Cell.i 28] ++
             [Cell.f l, Cell.f t, Cell.f r, Cell.f b, Cell.f rx, Cell.f ry,
              Cell.i (pi : Int)]) ∧
    (∀ (path : PathH) (p : Paint) (s : RecState),
       quickReject s (path.inkL - p.outset) (path.inkT - p.outset)
           (path.inkR - path.inkL + 2 * p.outset)
           (path.inkB - path.inkT + 2 * p.outset) = true →
       ∃ phi pi : Nat,
         (drawPath path p s).cells =
           flushCells s ++
             [Cell.i (opDrawPath + OP_MAY_BE_SKIPPED_MASK), Cell.i 8] ++
             [Cell.i (phi : Int), Cell.i (pi : Int)]) ∧
    (∀ (bs : List Nat) (bytesCount count : Int) (x y : ℚ) (p : Paint)
       (length : ℚ) (s : RecState),
       0 < count → p.align = 0 →
       quickReject s x (y + p.metricsTop)
           (x + (if length < 0 then p.measured else length))
           (y + p.metricsBottom) = true →
       ∃ pi : Nat,
         (drawText (some bs) bytesCount count x y p length s).cells =
           flushCells s ++
             [Cell.i (opDrawText + OP_MAY_BE_SKIPPED_MASK),
              Cell.i (4 * (((textCells bs bytesCount ++
                  [Cell.i count, Cell.f x, Cell.f y, Cell.i (pi : Int),
                   Cell.f (if length < 0 then p.measured
                           else length)]).length : Nat) : Int))] ++
             (textCells bs bytesCount ++
              [Cell.i count, Cell.f x, Cell.f y, Cell.i (pi : Int),
               Cell.f (if length < 0 then p.measured else length)])) ∧
    (drawColor 255 1 (drawBitmap bmp0 1000 1000 paintA
        (initRec 100 100))).cells.get? 1 = some (Cell.i 16) ∧
    (drawColor 255 1 (drawBitmap bmp0 1000 1000 paintA
        (initRec 100 100))).cells.get? (2 + 16 / 4) = some (Cell.i opDrawColor) := by
  refine ⟨?_, ?_, ?_, ?_, ?_, ?_, by decide, by decide⟩
  · intro b left top p s h
    refine ⟨(addBitmapT b s).1, (addPaintT p (addBitmapT b s).2).1, ?_⟩
    have e : drawBitmap b left top p s =
        addOpSkippable opDrawBitmap
          (quickReject s left top (left + b.bw) (top + b.bh))
          [Cell.i (((addBitmapT b s).1 : Nat) : Int), Cell.f left, Cell.f top,
           Cell.i (((addPaintT p (addBitmapT b s).2).1 : Nat) : Int)]
          ((addPaintT p (addBitmapT b s).2).2) := rfl
    rw [e, h, addOpSkippable_true_cells]
    have hb := addBitmapT_snd b s
    have hp := addPaintT_snd p (addBitmapT b s).2
    rw [flushCells_ext ((addPaintT p (addBitmapT b s).2).2) s
      (by rw [hp.1, hb.1]) (by rw [hp.2.1, hb.2.1]) (by rw [hp.2.2.1, hb.2.2.1])
      (by rw [hp.2.2.2.1, hb.2.2.2.1]) (by rw [hp.2.2.2.2, hb.2.2.2.2])]
    norm_num
  · intro l t r b p s hst h
    refine ⟨(addPaintT p s).1, ?_⟩
    have e : drawRect l t r b p s =
        addOpSkippable opDrawRect (decide (p.style = 0) && quickReject s l t r b)
          [Cell.f l, Cell.f t, Cell.f r, Cell.f b,
           Cell.i (((addPaintT p s).1 : Nat) : Int)]
          ((addPaintT p s).2) := rfl
    rw [e, show (decide (p.style = 0) && quickReject s l t r b) = true by
      simp [hst, h]]
    rw [addOpSkippable_true_cells]
    have hp := addPaintT_snd p s
    rw [flushCells_ext ((addPaintT p s).2) s hp.1 hp.2.1 hp.2.2.1
      hp.2.2.2.1 hp.2.2.2.2]
    norm_num
  · intro handle w h flags s hq
    have e : drawDisplayList handle w h flags s =
        addOpSkippable opDrawDisplayList (quickReject s 0 0 (w : ℚ) (h : ℚ))
          [Cell.i handle, Cell.i w, Cell.i h, Cell.i flags] s := rfl
    rw [e, hq, addOpSkippable_true_cells]
    norm_num
  · intro l t r b rx ry p s hst h
    refine ⟨(addPaintT p s).1, ?_⟩
    have e : drawRoundRect l t r b rx ry p s =
        addOpSkippable opDrawRoundRect
          (decide (p.style = 0) && quickReject s l t r b)
          [Cell.f l, Cell.f t, Cell.f r, Cell.f b, Cell.f rx, Cell.f ry,
           Cell.i (((addPaintT p s).1 : Nat) : Int)]
          ((addPaintT p s).2) := rfl
    rw [e, show (decide (p.style = 0) && quickReject s l t r b) = true by
      simp [hst, h]]
    rw [addOpSkippable_true_cells]
    have hp := addPaintT_snd p s
    rw [flushCells_ext ((addPaintT p s).2) s hp.1 hp.2.1 hp.2.2.1
      hp.2.2.2.1 hp.2.2.2.2]
    norm_num
  · intro path p s hq
    refine ⟨(addPathT path s).1, (addPaintT p (addPathT path s).2).1, ?_⟩
    have e : drawPath path p s =
        addOpSkippable opDrawPath
          (quickReject s (path.inkL - p.outset) (path.inkT - p.outset)
            (path.inkR - path.inkL + 2 * p.outset)
            (path.inkB - path.inkT + 2 * p.outset))
          [Cell.i (((addPathT path s).1 : Nat) : Int),
           Cell.i (((addPaintT p (addPathT path s).2).1 : Nat) : Int)]
          ((addPaintT p (addPathT path s).2).2) := rfl
    rw [e, hq, addOpSkippable_true_cells]
    have hph := addPathT_snd path s
    have hp := addPaintT_snd p (addPathT path s).2
    rw [flushCells_ext ((addPaintT p (addPathT path s).2).2) s
      (by rw [hp.1, hph.1]) (by rw [hp.2.1, hph.2.1])
      (by rw [hp.2.2.1, hph.2.2.1]) (by rw [hp.2.2.2.1, hph.2.2.2.1])
      (by rw [hp.2.2.2.2, hph.2.2.2.2])]
    norm_num
  · intro bs bytesCount count x y p length s hc halign hq
    refine ⟨(addPaintT { p with antiAlias := true } s).1, ?_⟩
    have e : drawText (some bs) bytesCount count x y p length s =
        if count ≤ 0 then s else
          addOpSkippable opDrawText
            (if p.align = 0 then
               quickReject s x (y + p.metricsTop)
                 (x + (if length < 0 then p.measured else length))
                 (y + p.metricsBottom)
             else false)
            (textCells bs bytesCount ++
             [Cell.i count, Cell.f x, Cell.f y,
              Cell.i (((addPaintT { p with antiAlias := true } s).1 : Nat) : Int),
              Cell.f (if length < 0 then p.measured else length)])
            ((addPaintT { p with antiAlias := true } s).2) := rfl
    rw [e, if_neg (by omega : ¬ count ≤ 0), if_pos halign, hq,
      addOpSkippable_true_cells]
    have hp := addPaintT_snd { p with antiAlias := true } s
    rw [flushCells_ext ((addPaintT { p with antiAlias := true } s).2) s hp.1
      hp.2.1 hp.2.2.1 hp.2.2.2.1 hp.2.2.2.2]

/-- Claim C6, witness: the drawBitmap form instantiated at a bitmap placed
at (1000, 1000) against a 100 by 100 clip. -/
theorem claim_C6_witness :
    ∃ bi pi : Nat,
      (drawBitmap bmp0 1000 1000 paintA (initRec 100 100)).cells =
        flushCells (initRec 100 100) ++
          [Cell.i (opDrawBitmap + OP_MAY_BE_SKIPPED_MASK), Cell.i 16] ++
          [Cell.i (bi : Int), Cell.f 1000, Cell.f 1000, Cell.i (pi : Int)] :=
  claim_C6.1 bmp0 1000 1000 paintA (initRec 100 100) (by decide)

/-- Claim C7: finalizing a recorder session with a non-empty stream into a
fresh list increments the shared refcount of each resource by its number of
table entries holding it; destroying a list decrements by the same counts;
and after two lists are created from a session referencing bitmap 5 once and
one of them is destroyed, bitmap 5's refcount is 1, not 0. -/
theorem claim_C7 :
    (∀ (dl : DisplayList) (rec : RecState) (cache : Cache) (x : Int),
       rec.cells.length ≠ 0 →
       (dl.initFromDisplayListRenderer rec false cache).2 x =
         cache x + (rec.bitmaps.map BitmapH.hid).count x
           + rec.filters.count x + rec.shaders.count x) ∧
    (∀ (dl : DisplayList) (cache : Cache) (x : Int),
       (dl.clearResources cache).2 x =
         cache x - (dl.bitmaps.map BitmapH.hid).count x
           - dl.filters.count x - dl.shaders.count x) ∧
    ((((getDisplayList none bmpSessionRec zeroCache).1).clearResources
        ((getDisplayList none bmpSessionRec
            ((getDisplayList none bmpSessionRec zeroCache).2)).2)).2) 5 = 1 := by
  refine ⟨?_, ?_, by decide⟩
  · intro dl rec cache x h
    have hb : rec.bitmaps.foldl (fun c b => incrementRefcount b.hid c) cache =
        (rec.bitmaps.map BitmapH.hid).foldl
          (fun c h => incrementRefcount h c) cache := by
      rw [List.foldl_map]
    have e : (dl.initFromDisplayListRenderer rec false cache).2 =
        rec.shaders.foldl (fun c h => incrementRefcount h c)
          (rec.filters.foldl (fun c h => incrementRefcount h c)
            (rec.bitmaps.foldl (fun c b => incrementRefcount b.hid c) cache)) := by
      unfold DisplayList.initFromDisplayListRenderer
      rw [if_neg h]
      rfl
    rw [e, hb, foldl_incrementRefcount, foldl_incrementRefcount,
      foldl_incrementRefcount]
  · intro dl cache x
    have hb : dl.bitmaps.foldl (fun c b => decrementRefcount b.hid c) cache =
        (dl.bitmaps.map BitmapH.hid).foldl
          (fun c h => decrementRefcount h c) cache := by
      rw [List.foldl_map]
    have e : (dl.clearResources cache).2 =
        dl.shaders.foldl (fun c h => decrementRefcount h c)
          (dl.filters.foldl (fun c h => decrementRefcount h c)
            (dl.bitmaps.foldl (fun c b => decrementRefcount b.hid c) cache)) := rfl
    rw [e, hb, foldl_decrementRefcount, foldl_decrementRefcount,
      foldl_decrementRefcount]

/-- Claim C7, witness: the retain side instantiated at the session that
references bitmap 5 once, read back at handle 5. -/
theorem claim_C7_witness :
    (emptyDisplayList.initFromDisplayListRenderer bmpSessionRec false
        zeroCache).2 5 =
      zeroCache 5 + (bmpSessionRec.bitmaps.map BitmapH.hid).count 5
        + bmpSessionRec.filters.count 5 + bmpSessionRec.shaders.count 5 :=
  claim_C7.1 emptyDisplayList bmpSessionRec zeroCache 5 (by decide)

/-- Popping a snapshot never touches the write stream. -/
theorem basePop_cells (u : RecState) : (basePop u).cells = u.cells := by
  unfold DisplayListRenderer.basePop
  cases u.stack <;> rfl

/-- Restoring the snapshot stack never touches the write stream. -/
theorem baseRestoreToCount_cells (n : Int) (u : RecState) :
    (baseRestoreToCount n u).cells = u.cells := by
  unfold DisplayListRenderer.baseRestoreToCount
  generalize (u.mSaveCount - max n 1).toNat = k
  induction k generalizing u with
  | zero => rfl
  | succ k ih =>
    rw [Function.iterate_succ_apply, ih, basePop_cells]

/-- Claim C8: a maximal run of consecutive `translate` calls started with no
pending translation flushes as exactly one `Translate` opcode carrying the
component sums of the whole run — under `finish`, under a `drawColor`
follower, under any plain-`addOp` follower, under any skippable-recorded
follower (`addOpSkippable` generally and `drawRect` end-to-end, whether or
not the draw is quick-rejected), and under a `restore`/`restoreToCount`
follower (whose own opcode is deferred) — always placed before the following
operation's opcode. -/
theorem claim_C8 :
    ∀ (p : ℚ × ℚ) (ps : List (ℚ × ℚ)) (s : RecState),
      s.mHasTranslate = false → s.mTranslateX = 0 → s.mTranslateY = 0 →
      (finish (applyTranslates (p :: ps) s)).cells =
        (insertRestoreToCount s).cells ++
          [Cell.i opTranslate, Cell.f (((p :: ps).map Prod.fst).sum),
           Cell.f (((p :: ps).map Prod.snd).sum)] ∧
      (∀ (color mode : Int),
        (drawColor color mode (applyTranslates (p :: ps) s)).cells =
          (insertRestoreToCount s).cells ++
            [Cell.i opTranslate, Cell.f (((p :: ps).map Prod.fst).sum),
             Cell.f (((p :: ps).map Prod.snd).sum),
             Cell.i opDrawColor, Cell.i color, Cell.i mode]) ∧
      (∀ (opc : Int),
        (addOp opc (applyTranslates (p :: ps) s)).cells =
          (insertRestoreToCount s).cells ++
            [Cell.i opTranslate, Cell.f (((p :: ps).map Prod.fst).sum),
             Cell.f (((p :: ps).map Prod.snd).sum), Cell.i opc]) ∧
      (∀ (opc : Int) (reject : Bool) (ops : List Cell),
        (addOpSkippable opc reject ops (applyTranslates (p :: ps) s)).cells =
          (insertRestoreToCount s).cells ++
            [Cell.i opTranslate, Cell.f (((p :: ps).map Prod.fst).sum),
             Cell.f (((p :: ps).map Prod.snd).sum)] ++
            (if reject then
              Cell.i (opc + OP_MAY_BE_SKIPPED_MASK) ::
                Cell.i (4 * (ops.length : Int)) :: ops
             else Cell.i opc :: ops)) ∧
      (∀ (l t r b : ℚ) (pa : Paint),
        ∃ pi : Nat,
          (drawRect l t r b pa (applyTranslates (p :: ps) s)).cells =
            (insertRestoreToCount s).cells ++
              [Cell.i opTranslate, Cell.f (((p :: ps).map Prod.fst).sum),
               Cell.f (((p :: ps).map Prod.snd).sum)] ++
              (if decide (pa.style = 0) &&
                  quickReject (applyTranslates (p :: ps) s) l t r b then
                Cell.i (opDrawRect + OP_MAY_BE_SKIPPED_MASK) :: Cell.i 20 ::
                  [Cell.f l, Cell.f t, Cell.f r, Cell.f b, Cell.i (pi : Int)]
               else Cell.i opDrawRect ::
                  [Cell.f l, Cell.f t, Cell.f r, Cell.f b, Cell.i (pi : Int)])) ∧
      (∀ (n : Int),
        (restoreToCount n (applyTranslates (p :: ps) s)).cells =
          (insertRestoreToCount s).cells ++
            [Cell.i opTranslate, Cell.f (((p :: ps).map Prod.fst).sum),
             Cell.f (((p :: ps).map Prod.snd).sum)]) ∧
      (restore (applyTranslates (p :: ps) s)).cells =
        (insertRestoreToCount s).cells ++
          [Cell.i opTranslate, Cell.f (((p :: ps).map Prod.fst).sum),
           Cell.f (((p :: ps).map Prod.snd).sum)] := by
  intro p ps s h1 hx hy
  have ht := applyTranslates_run p ps s h1 hx hy
  have hrsc : (applyTranslates (p :: ps) s).mRestoreSaveCount < 0 := by
    rw [ht]
    simpa using insertRestoreToCount_rsc_neg s
  have hflush : flushCells (applyTranslates (p :: ps) s) =
      (insertRestoreToCount s).cells ++
        [Cell.i opTranslate, Cell.f (((p :: ps).map Prod.fst).sum),
         Cell.f (((p :: ps).map Prod.snd).sum)] := by
    unfold flushCells
    rw [insertRestoreToCount_of_neg _ hrsc, ht]
    simp [DisplayListRenderer.insertTranlate]
  have hB : ∀ (color mode : Int),
      (drawColor color mode (applyTranslates (p :: ps) s)).cells =
        (insertRestoreToCount s).cells ++
          [Cell.i opTranslate, Cell.f (((p :: ps).map Prod.fst).sum),
           Cell.f (((p :: ps).map Prod.snd).sum),
           Cell.i opDrawColor, Cell.i color, Cell.i mode] := by
    intro color mode
    have e : (drawColor color mode (applyTranslates (p :: ps) s)).cells =
        flushCells (applyTranslates (p :: ps) s) ++ [Cell.i opDrawColor] ++
          [Cell.i color, Cell.i mode] := rfl
    rw [e, hflush]
    simp
  have hC : ∀ (opc : Int),
      (addOp opc (applyTranslates (p :: ps) s)).cells =
        (insertRestoreToCount s).cells ++
          [Cell.i opTranslate, Cell.f (((p :: ps).map Prod.fst).sum),
           Cell.f (((p :: ps).map Prod.snd).sum), Cell.i opc] := by
    intro opc
    have e : (addOp opc (applyTranslates (p :: ps) s)).cells =
        flushCells (applyTranslates (p :: ps) s) ++ [Cell.i opc] := rfl
    rw [e, hflush]
    simp
  have hD : ∀ (opc : Int) (reject : Bool) (ops : List Cell),
      (addOpSkippable opc reject ops (applyTranslates (p :: ps) s)).cells =
        (insertRestoreToCount s).cells ++
          [Cell.i opTranslate, Cell.f (((p :: ps).map Prod.fst).sum),
           Cell.f (((p :: ps).map Prod.snd).sum)] ++
          (if reject then
            Cell.i (opc + OP_MAY_BE_SKIPPED_MASK) ::
              Cell.i (4 * (ops.length : Int)) :: ops
           else Cell.i opc :: ops) := by
    intro opc reject ops
    cases reject with
    | true =>
      rw [addOpSkippable_true_cells, hflush]
      simp
    | false =>
      have e : (addOpSkippable opc false ops
          (applyTranslates (p :: ps) s)).cells =
          flushCells (applyTranslates (p :: ps) s) ++ [Cell.i opc] ++ ops := rfl
      rw [e, hflush]
      simp
  have hF : ∀ (n : Int),
      (restoreToCount n (applyTranslates (p :: ps) s)).cells =
        (insertRestoreToCount s).cells ++
          [Cell.i opTranslate, Cell.f (((p :: ps).map Prod.fst).sum),
           Cell.f (((p :: ps).map Prod.snd).sum)] := by
    intro n
    have e : (restoreToCount n (applyTranslates (p :: ps) s)).cells =
        (insertTranlate { applyTranslates (p :: ps) s with
          mRestoreSaveCount := n }).cells :=
      baseRestoreToCount_cells n _
    rw [e, ht]
    simp [DisplayListRenderer.insertTranlate]
  refine ⟨?_, hB, hC, hD, ?_, hF, ?_⟩
  · exact hflush
  · intro l t r b pa
    refine ⟨(addPaintT pa (applyTranslates (p :: ps) s)).1, ?_⟩
    have e : drawRect l t r b pa (applyTranslates (p :: ps) s) =
        addOpSkippable opDrawRect
          (decide (pa.style = 0) &&
            quickReject (applyTranslates (p :: ps) s) l t r b)
          [Cell.f l, Cell.f t, Cell.f r, Cell.f b,
           Cell.i (((addPaintT pa (applyTranslates (p :: ps) s)).1 : Nat) : Int)]
          ((addPaintT pa (applyTranslates (p :: ps) s)).2) := rfl
    rw [e]
    have hp := addPaintT_snd pa (applyTranslates (p :: ps) s)
    have hfl2 : flushCells ((addPaintT pa (applyTranslates (p :: ps) s)).2) =
        flushCells (applyTranslates (p :: ps) s) :=
      flushCells_ext _ _ hp.1 hp.2.1 hp.2.2.1 hp.2.2.2.1 hp.2.2.2.2
    cases hR : (decide (pa.style = 0) &&
        quickReject (applyTranslates (p :: ps) s) l t r b) with
    | true =>
      rw [addOpSkippable_true_cells, hfl2, hflush]
      norm_num
    | false =>
      have e2 : (addOpSkippable opDrawRect false
          [Cell.f l, Cell.f t, Cell.f r, Cell.f b,
           Cell.i (((addPaintT pa (applyTranslates (p :: ps) s)).1 : Nat) : Int)]
          ((addPaintT pa (applyTranslates (p :: ps) s)).2)).cells =
          flushCells ((addPaintT pa (applyTranslates (p :: ps) s)).2) ++
            [Cell.i opDrawRect] ++
            [Cell.f l, Cell.f t, Cell.f r, Cell.f b,
             Cell.i (((addPaintT pa
               (applyTranslates (p :: ps) s)).1 : Nat) : Int)] := rfl
      rw [e2, hfl2, hflush]
      simp
  · have e : restore (applyTranslates (p :: ps) s) =
        restoreToCount ((applyTranslates (p :: ps) s).mSaveCount - 1)
          (applyTranslates (p :: ps) s) := by
      unfold DisplayListRenderer.restore
      rw [if_pos hrsc]
    rw [e, hF]

/-- Claim C8, witness: the run `translate(10,20); translate(5,6)` from a
fresh session flushes as one `Translate` opcode with operands (15, 26),
standing alone under `finish` and before the `DrawColor` opcode. -/
theorem claim_C8_witness :
    (finish (applyTranslates [(10, 20), (5, 6)] (initRec 100 100))).cells =
      (insertRestoreToCount (initRec 100 100)).cells ++
        [Cell.i opTranslate, Cell.f 15, Cell.f 26] ∧
    (drawColor 255 1 (applyTranslates [(10, 20), (5, 6)]
        (initRec 100 100))).cells =
      (insertRestoreToCount (initRec 100 100)).cells ++
        [Cell.i opTranslate, Cell.f 15, Cell.f 26,
         Cell.i opDrawColor, Cell.i 255, Cell.i 1] := by
  have h := claim_C8 (10, 20) [(5, 6)] (initRec 100 100) rfl rfl rfl
  refine ⟨?_, ?_⟩
  · have h1 := h.1
    norm_num at h1 ⊢
    exact h1
  · have h2 := h.2.1 255 1
    norm_num at h2 ⊢
    exact h2

end HwuiDL
